import Mathlib

/-!
Verification development for the HinganAI agriculture API backend
(`backend/app.py` and `backend/routes/additional_routes.py`).

The four prediction request handlers are embedded shallowly as pure Lean
functions.  Opaque third-party capabilities (the ML models, the scalers,
the Supabase client, the clock) are passed in as explicit parameters:
a handler receives the model's raw prediction output, an oracle telling
which database-insert attempts would succeed, the current store contents,
and a timestamp string.  Everything the repository's own code computes
(validation, coercion, branching, table names, advisory text, retry
policy, response assembly) is translated directly from the Python source.
-/

/-- A JSON value as received in a request body.  The handlers only ever
inspect strings, numbers and null (absent optional fields), so the
embedding carries exactly those. -/
inductive JValue where
  | str : String → JValue
  | num : ℚ → JValue
  | null : JValue
deriving DecidableEq, Repr

/-- A request body / persisted row: an association list of field names to
JSON values (Python `dict` received from `request.get_json()`). -/
abbrev RowData := List (String × JValue)

/-- The persistence store: table name → rows (most recently inserted
first).  Supabase is opaque; only which table is written and what row is
appended matter to the repository's code. -/
abbrev Store := String → List RowData

/-- Numeric value of a list of decimal digit characters. -/
def digitsVal (cs : List Char) : ℚ :=
  cs.foldl (fun a c => 10 * a + ((c.toNat - 48 : ℕ) : ℚ)) 0

/-- Embedding of Python `float(s)` on a plain decimal string literal:
optional sign, then digits with an optional fractional part.  Other forms
Python would also accept (exponents, `inf`, `nan`, surrounding
whitespace, underscores) are outside the inputs this development
evaluates on; every string the development feeds to this parser is either
a plain decimal literal or clearly non-numeric in Python as well. -/
def pyFloatStr (s : String) : Option ℚ :=
  let cs := s.data
  let signed : ℚ × List Char :=
    match cs with
    | '-' :: r => (-1, r)
    | '+' :: r => (1, r)
    | r => (1, r)
  let intPart := signed.2.takeWhile Char.isDigit
  let rest := signed.2.dropWhile Char.isDigit
  match rest with
  | [] =>
      if intPart.isEmpty then none
      else some (signed.1 * digitsVal intPart)
  | '.' :: frac =>
      if frac.all Char.isDigit ∧ ¬(intPart.isEmpty ∧ frac.isEmpty) then
        some (signed.1 * (digitsVal intPart + digitsVal frac / (10 : ℚ) ^ frac.length))
      else none
  | _ => none

/-- Embedding of Python `int(s)` on a plain (optionally signed) decimal
integer string. -/
def pyIntStr (s : String) : Option ℤ :=
  let cs := s.data
  let signed : ℤ × List Char :=
    match cs with
    | '-' :: r => (-1, r)
    | '+' :: r => (1, r)
    | r => (1, r)
  if ¬signed.2.isEmpty ∧ signed.2.all Char.isDigit then
    some (signed.1 * (digitsVal signed.2).num)
  else none

/-- Python `float(v)` on a JSON value: numbers pass through, strings are
parsed, anything else raises (modelled as `none`). -/
def pyFloat : JValue → Option ℚ
  | .num q => some q
  | .str s => pyFloatStr s
  | .null => none

/-- Python `int(v)` on a JSON value: numbers truncate toward zero,
strings are parsed as integer literals, anything else raises. -/
def pyInt : JValue → Option ℤ
  | .num q => some (q.num / (q.den : ℤ))
  | .str s => pyIntStr s
  | .null => none

/-- Python truthiness of an optional JSON value, as used by
`if supabase and user_id:` — absent and null are falsy, the empty string
and zero are falsy, everything else is truthy. -/
def truthy : Option JValue → Bool
  | none => false
  | some .null => false
  | some (.str s) => s ≠ ""
  | some (.num q) => q ≠ 0

/-- The first required field missing from the request body, in declared
order (the handlers' `for field in required_fields: if field not in data`
loop returns on the first miss). -/
def firstMissing (required : List String) (data : RowData) : Option String :=
  required.find? (fun f => (data.lookup f).isNone)

/-- Look a field up and coerce it with Python `float`; the `Except` error
carries the field at which the handler's try-block raises. -/
def getFloat (data : RowData) (f : String) : Except String ℚ :=
  match data.lookup f with
  | some v =>
      match pyFloat v with
      | some q => .ok q
      | none => .error f
  | none => .error f

/-- Look a field up and coerce it with Python `int`. -/
def getInt (data : RowData) (f : String) : Except String ℤ :=
  match data.lookup f with
  | some v =>
      match pyInt v with
      | some n => .ok n
      | none => .error f
  | none => .error f

/-- Look a field up with no coercion (`data['f']`, pass-through value). -/
def getRaw (data : RowData) (f : String) : Except String JValue :=
  match data.lookup f with
  | some v => .ok v
  | none => .error f

/-- Outcome of one handler's best-effort persistence block: how many
insert attempts ran, how many one-second sleeps happened between them,
and whether any attempt succeeded. -/
structure SaveTrace where
  attempts : ℕ
  sleeps : ℕ
  saved : Bool
deriving DecidableEq, Repr

/-- The trace of a handler that never reached (or skipped) its
persistence block. -/
def noSave : SaveTrace := ⟨0, 0, false⟩

/-- The `for attempt in range(max_retries)` insert loop from the
handlers: try the insert; on success break; on failure sleep 1 second
and retry unless this was the last attempt.  `oracle n` tells whether the
attempt numbered `n` would succeed; `remaining` counts attempts still
allowed. -/
def saveLoop (oracle : ℕ → Bool) : ℕ → ℕ → SaveTrace
  | _, 0 => noSave
  | attempt, remaining + 1 =>
      if oracle attempt then ⟨1, 0, true⟩
      else if remaining = 0 then ⟨1, 0, false⟩
      else
        let rest := saveLoop oracle (attempt + 1) remaining
        ⟨rest.attempts + 1, rest.sleeps + 1, rest.saved⟩

/-- Prepend a row to one table of the store. -/
def updateStore (s : Store) (table : String) (row : RowData) : Store :=
  fun t => if t = table then row :: s t else s t

/-- The shared persistence block of the four primary handlers:
executed only when the Supabase client is configured and the caller's
`user_id` is truthy; up to 3 attempts with a 1-second sleep between
consecutive attempts; the row lands in the store exactly when some
attempt succeeds; the final failure is logged and swallowed. -/
def persist (sb : Bool) (uid : Bool) (oracle : ℕ → Bool) (table : String)
    (row : RowData) (s : Store) : Store × SaveTrace :=
  if sb ∧ uid then
    let tr := saveLoop oracle 0 3
    (if tr.saved then updateStore s table row else s, tr)
  else (s, noSave)

/-- The single-attempt persistence block of the duplicated handlers in
`additional_routes.py` (plain try/except, no retry). -/
def persistOnce (sb : Bool) (uid : Bool) (oracle : ℕ → Bool) (table : String)
    (row : RowData) (s : Store) : Store × SaveTrace :=
  if sb ∧ uid then
    if oracle 0 then (updateStore s table row, ⟨1, 0, true⟩)
    else (s, ⟨1, 0, false⟩)
  else (s, noSave)

/-- Table `CROP_DICT` from `app.py`: the crop-recommendation model's class
index → crop name enumeration table. -/
def CROP_DICT : List (ℤ × String) :=
  [(1, "Rice"), (2, "Maize"), (3, "Jute"), (4, "Cotton"), (5, "Coconut"),
   (6, "Papaya"), (7, "Orange"), (8, "Apple"), (9, "Muskmelon"),
   (10, "Watermelon"), (11, "Grapes"), (12, "Mango"), (13, "Banana"),
   (14, "Pomegranate"), (15, "Lentil"), (16, "Blackgram"), (17, "Mungbean"),
   (18, "Mothbeans"), (19, "Pigeonpeas"), (20, "Kidneybeans"),
   (21, "Chickpea"), (22, "Coffee")]

/-- Table `DISEASE_LABELS` from `app.py`: the disease model's class index →
label table. -/
def DISEASE_LABELS : List (ℤ × String) :=
  [(0, "Healthy"), (1, "Powdery"), (2, "Rust")]

/-- Function `get_severity_level(confidence, disease)` from `app.py`, translated
branch for branch. -/
def get_severity_level (confidence : ℚ) (disease : String) : String :=
  if disease = "Healthy" then "Good"
  else if confidence > 8/10 then
    if disease = "Powdery" ∨ disease = "Rust" then "High" else "Medium"
  else if confidence > 6/10 then "Medium"
  else "Low"

/-- One entry of the static `fertilizer_info` table in
`get_fertilizer_advice`. -/
structure FertInfo where
  description : String
  usage : String
  applyWhen : String
deriving DecidableEq, Repr

/-- The static `fertilizer_info` lookup table from
`get_fertilizer_advice` (field `applyWhen` holds the source's
`application` text). -/
def fertilizer_info : List (String × FertInfo) :=
  [("Urea", ⟨"High nitrogen fertilizer (46% N)",
             "Promotes vegetative growth and leaf development",
             "Apply before planting or during early growth stages"⟩),
   ("DAP", ⟨"Diammonium Phosphate (18% N, 46% P)",
            "Excellent for root development and early plant growth",
            "Apply at planting time for best results"⟩),
   ("14-35-14", ⟨"Balanced fertilizer with high phosphorus",
                 "Good for flowering and fruit development",
                 "Apply during flowering stage"⟩),
   ("28-28", ⟨"Equal nitrogen and phosphorus",
              "Balanced nutrition for overall plant health",
              "Can be used throughout growing season"⟩),
   ("17-17-17", ⟨"Complete balanced fertilizer",
                 "All-purpose nutrition for healthy growth",
                 "Suitable for most crops and growth stages"⟩),
   ("20-20", ⟨"High nitrogen-phosphorus blend",
              "Promotes both vegetative and root growth",
              "Best for early to mid-season application"⟩),
   ("10-26-26", ⟨"Low nitrogen, high phosphorus and potassium",
                 "Excellent for fruit and flower development",
                 "Apply during reproductive stages"⟩)]

/-- The nitrogen line of the soil-analysis section of
`get_fertilizer_advice`: `< 20` low, `> 50` high, otherwise adequate. -/
def nitrogenLine (n : ℚ) : String :=
  if n < 20 then "• 🔴 Low nitrogen detected - this fertilizer will help boost leaf growth"
  else if n > 50 then "• 🟡 High nitrogen levels - monitor to prevent excessive vegetative growth"
  else "• 🟢 Nitrogen levels are adequate"

/-- The phosphorous line: `< 15` low, `> 40` good, otherwise moderate. -/
def phosphorousLine (p : ℚ) : String :=
  if p < 15 then "• 🔴 Low phosphorus - will improve root development and flowering"
  else if p > 40 then "• 🟢 Good phosphorus levels - maintain current status"
  else "• 🟡 Moderate phosphorus levels"

/-- The potassium line: `< 20` low, `> 50` excellent, otherwise
moderate. -/
def potassiumLine (k : ℚ) : String :=
  if k < 20 then "• 🔴 Low potassium - will enhance disease resistance and fruit quality"
  else if k > 50 then "• 🟢 Excellent potassium levels"
  else "• 🟡 Moderate potassium levels"

/-- Render a pass-through JSON value into an f-string (used only for the
advisory footer lines, whose contents no claim inspects beyond their
fixed prefixes; Python's numeric `repr` is approximated by `toString`). -/
def jtext : JValue → String
  | .str s => s
  | .num q => toString q
  | .null => "None"

/-- The `base_info` value of `get_fertilizer_advice`: the static table entry, or
the generic default built from the fertilizer's name. -/
def fertBaseInfo (fert : String) : FertInfo :=
  (fertilizer_info.lookup fert).getD
    ⟨fert ++ " fertilizer", "Follow manufacturer guidelines",
     "Apply according to crop requirements"⟩

/-- The lines of `get_fertilizer_advice` before the soil-analysis
section: recommendation banner, description, usage, application. -/
def adviceHeader (fert : String) : List String :=
  ["🌾 Recommended Fertilizer: " ++ fert,
   "",
   "📋 Description: " ++ (fertBaseInfo fert).description,
   "🎯 Usage: " ++ (fertBaseInfo fert).usage,
   "⏰ Application: " ++ (fertBaseInfo fert).applyWhen,
   "",
   "📊 Soil Analysis Recommendations:"]

/-- The closing lines of `get_fertilizer_advice`: crop/soil and
temperature/humidity echo lines. -/
def adviceFooter (cropT soilT tempV humV : JValue) : List String :=
  ["",
   "🌱 Crop: " ++ (jtext cropT ++ (" | 🏔️ Soil: " ++ jtext soilT)),
   "🌡️ Temperature: " ++ (jtext tempV ++ ("°C | 💧 Humidity: " ++ (jtext humV ++ "%")))]

/-- Function `get_fertilizer_advice(fertilizer, input_data)` from `app.py`,
as the list of lines of the advisory string it concatenates (the source
builds one string joined by newlines; each list element here is one line,
blank lines included).  The three nutrient values are the `float()`
coercions the source applies to `input_data`. -/
def get_fertilizer_advice_lines (fert : String) (n p k : ℚ)
    (cropT soilT tempV humV : JValue) : List String :=
  adviceHeader fert
    ++ [nitrogenLine n, phosphorousLine p, potassiumLine k]
    ++ adviceFooter cropT soilT tempV humV

/-- The distinguishable error outcomes of the handlers.  Only the
missing-field message text is contractual; the others are tagged by
cause (the Python text of a raised exception depends on the library). -/
inductive ApiError where
  | missingField (name : String)
  | castError (field : String)
  | modelUnavailable (msg : String)
  | noFile
  | emptyFilename
  | keyError (k : ℤ)
  | dbNotConfigured
deriving DecidableEq, Repr

/-- The `error` string of the JSON error body, where the source fixes
it.  For a missing field the source formats `f'Missing field: {field}'`;
for a model-unavailable error it uses the fixed message. -/
def errorText : ApiError → String
  | .missingField n => "Missing field: " ++ n
  | .modelUnavailable m => m
  | .castError f => "could not coerce field: " ++ f
  | .noFile => "No file uploaded"
  | .emptyFilename => "No file selected"
  | .keyError k => "KeyError: " ++ toString k
  | .dbNotConfigured => "Database not configured"

/-- A handler's JSON response: HTTP status, the `success` flag, and the
payload fields the claims inspect (fields a given handler does not emit
stay `none`). -/
structure ApiResp where
  status : ℕ
  success : Bool
  error : Option ApiError := none
  recommended_crop : Option String := none
  message : Option String := none
  confidence : Option ℚ := none
  disease : Option String := none
  severity : Option String := none
  predicted_yield : Option ℚ := none
  yield_per_hectare : Option ℚ := none
  recommended_fertilizer : Option String := none
  advice : Option (List String) := none
deriving DecidableEq, Repr

/-- An error response: `jsonify({'success': False, 'error': ...}), code`. -/
def errResp (code : ℕ) (e : ApiError) : ApiResp :=
  { status := code, success := false, error := some e }

/-- Required fields of `POST /api/crop-recommendation`. -/
def cropRequired : List String :=
  ["nitrogen", "phosphorus", "potassium", "temperature", "humidity", "ph", "rainfall"]

/-- The feature-extraction block of `predict_crop`: `float()` on the
seven fields, in source order; the error is the field whose coercion
raises first. -/
def coerceCrop (data : RowData) :
    Except String (ℚ × ℚ × ℚ × ℚ × ℚ × ℚ × ℚ) := do
  let n ← getFloat data "nitrogen"
  let p ← getFloat data "phosphorus"
  let k ← getFloat data "potassium"
  let t ← getFloat data "temperature"
  let h ← getFloat data "humidity"
  let ph ← getFloat data "ph"
  let r ← getFloat data "rainfall"
  return (n, p, k, t, h, ph, r)

/-- The soft-failure response of `predict_crop`'s else-branch: the
prediction fell outside `CROP_DICT`, a 200 with `success:false` and the
explanatory message, no crop name. -/
def cropSoftFailResp : ApiResp :=
  { status := 200, success := false,
    message := some "Could not determine the best crop with the provided data." }

/-- The row `predict_crop` inserts into table `crop_recommendations`. -/
def cropRow (userId : Option JValue) (n p k t h ph r conf : ℚ)
    (crop now : String) : RowData :=
  [("user_id", userId.getD .null), ("nitrogen", .num n),
   ("phosphorus", .num p), ("potassium", .num k),
   ("temperature", .num t), ("humidity", .num h),
   ("ph_level", .num ph), ("rainfall", .num r),
   ("recommended_crop", .str crop),
   ("confidence_score", .num conf), ("created_at", .str now)]

/-- Handler `predict_crop` from `app.py` (`POST /api/crop-recommendation`),
translated step for step: validate → coerce → model-availability check →
(opaque scaling + prediction, given as `pred`/`conf`) → map through
`CROP_DICT` → best-effort persistence → respond.  The long `advice`
f-string of the success payload (pure formatting of already-present
values) is not modelled. -/
def predict_crop (data : RowData) (modelsLoaded : List String)
    (pred : ℤ) (conf : ℚ) (sb : Bool) (oracle : ℕ → Bool) (s : Store)
    (now : String) : ApiResp × Store × SaveTrace :=
  match firstMissing cropRequired data with
  | some f => (errResp 400 (.missingField f), s, noSave)
  | none =>
    match coerceCrop data with
    | .error f => (errResp 500 (.castError f), s, noSave)
    | .ok (n, p, k, t, h, ph, r) =>
      let userId := data.lookup "user_id"
      if "crop_model" ∈ modelsLoaded then
        match CROP_DICT.lookup pred with
        | some crop =>
          let row := cropRow userId n p k t h ph r conf crop now
          let saved := persist sb (truthy userId) oracle "crop_recommendations" row s
          ({ status := 200, success := true, recommended_crop := some crop,
             confidence := some conf,
             message := some (crop ++ " is the best crop for these conditions") },
           saved.1, saved.2)
        | none => (cropSoftFailResp, s, noSave)
      else
        (errResp 500 (.modelUnavailable "Crop recommendation model not available"), s, noSave)

/-- The row `detect_disease` inserts into table `disease_detections`. -/
def diseaseRow (userId : Option JValue) (disease : String) (conf : ℚ)
    (now : String) : RowData :=
  [("user_id", userId.getD .null), ("detected_disease", .str disease),
   ("confidence_score", .num conf), ("created_at", .str now)]

/-- Handler `detect_disease` from `app.py` (`POST /api/disease-detection`),
translated step for step.  The multipart transport, image decoding and
TFLite inference are opaque: `filePresent`/`filename` stand for the
upload, `pred`/`conf` for `argmax` over the model output and its value.
`DISEASE_LABELS[predicted_class]` is a Python dict index: an index
outside the table raises `KeyError`, which the handler's catch-all turns
into a 500 error response.  The static treatment-advice lookup (a pure
function of the label, inspected by no claim) is not modelled. -/
def detect_disease (filePresent : Bool) (filename : String)
    (userId : Option JValue) (modelsLoaded : List String)
    (pred : ℤ) (conf : ℚ) (sb : Bool) (oracle : ℕ → Bool) (s : Store)
    (now : String) : ApiResp × Store × SaveTrace :=
  if ¬filePresent then (errResp 400 .noFile, s, noSave)
  else if filename = "" then (errResp 400 .emptyFilename, s, noSave)
  else if "disease_interpreter" ∉ modelsLoaded then
    (errResp 500 (.modelUnavailable "Disease detection model not available"), s, noSave)
  else
    match DISEASE_LABELS.lookup pred with
    | none => (errResp 500 (.keyError pred), s, noSave)
    | some disease =>
      let row := diseaseRow userId disease conf now
      let saved := persist sb (truthy userId) oracle "disease_detections" row s
      ({ status := 200, success := true, disease := some disease,
         confidence := some conf,
         severity := some (get_severity_level conf disease) },
       saved.1, saved.2)

/-- Required fields of `POST /api/crop-yield-prediction` (both the
primary handler and the duplicate). -/
def yieldRequired : List String :=
  ["Year", "average_rain_fall_mm_per_year", "pesticides_tonnes", "avg_temp", "Area", "Item"]

/-- The feature-extraction block of the primary `predict_crop_yield`:
`int()` on Year, `float()` on the three numerals, and pass-through for
`Area` (a country-name string in the primary handler) and `Item`. -/
def coerceYield (data : RowData) :
    Except String (ℤ × ℚ × ℚ × ℚ × JValue × JValue) := do
  let year ← getInt data "Year"
  let rain ← getFloat data "average_rain_fall_mm_per_year"
  let pest ← getFloat data "pesticides_tonnes"
  let temp ← getFloat data "avg_temp"
  let area ← getRaw data "Area"
  let item ← getRaw data "Item"
  return (year, rain, pest, temp, area, item)

/-- The row the primary `predict_crop_yield` inserts into table
`yield_predictions`. -/
def yieldRow (userId : Option JValue) (year : ℤ) (rain pest temp : ℚ)
    (area item : JValue) (py : ℚ) (now : String) : RowData :=
  [("user_id", userId.getD .null), ("year", .num (year : ℚ)),
   ("average_rainfall", .num rain), ("pesticides_usage", .num pest),
   ("average_temperature", .num temp), ("area", area),
   ("crop_item", item), ("predicted_yield", .num py),
   ("created_at", .str now)]

/-- Handler `predict_crop_yield` from `app.py`
(`POST /api/crop-yield-prediction`), translated step for step: validate →
model-availability check → coerce → (opaque preprocessing + regression,
given as `py`) → best-effort persistence into table
`yield_predictions` → respond. -/
def predict_crop_yield (data : RowData) (modelsLoaded : List String)
    (py : ℚ) (sb : Bool) (oracle : ℕ → Bool) (s : Store)
    (now : String) : ApiResp × Store × SaveTrace :=
  match firstMissing yieldRequired data with
  | some f => (errResp 400 (.missingField f), s, noSave)
  | none =>
    if "yield_model" ∉ modelsLoaded then
      (errResp 500 (.modelUnavailable "Crop yield model not available"), s, noSave)
    else
      match coerceYield data with
      | .error f => (errResp 500 (.castError f), s, noSave)
      | .ok (year, rain, pest, temp, area, item) =>
        let userId := data.lookup "user_id"
        let row := yieldRow userId year rain pest temp area item py now
        let saved := persist sb (truthy userId) oracle "yield_predictions" row s
        ({ status := 200, success := true, predicted_yield := some py },
         saved.1, saved.2)

/-- The feature-extraction block of the duplicated `predict_crop_yield`
in `additional_routes.py`: identical except that it applies `float()` to
`Area`. -/
def coerceYieldDup (data : RowData) :
    Except String (ℤ × ℚ × ℚ × ℚ × ℚ × JValue) := do
  let year ← getInt data "Year"
  let rain ← getFloat data "average_rain_fall_mm_per_year"
  let pest ← getFloat data "pesticides_tonnes"
  let temp ← getFloat data "avg_temp"
  let area ← getFloat data "Area"
  let item ← getRaw data "Item"
  return (year, rain, pest, temp, area, item)

/-- The row the duplicated yield handler inserts into table
`crop_yield_predictions`. -/
def yieldRowDup (userId : Option JValue) (year : ℤ) (rain pest temp area : ℚ)
    (item : JValue) (py : ℚ) (now : String) : RowData :=
  [("user_id", userId.getD .null), ("year", .num (year : ℚ)),
   ("rainfall", .num rain), ("pesticides_used", .num pest),
   ("temperature", .num temp), ("area", .num area),
   ("crop_type", item), ("predicted_yield", .num py),
   ("created_at", .str now)]

/-- The duplicated `predict_crop_yield` registered by
`add_yield_prediction_route` in `additional_routes.py`: same validation
and availability check, but `float(data['Area'])`, a single-attempt
persistence into table `crop_yield_predictions`, and a
`yield_per_hectare` field in the payload. -/
def predict_crop_yield_dup (data : RowData) (modelsLoaded : List String)
    (py : ℚ) (sb : Bool) (oracle : ℕ → Bool) (s : Store)
    (now : String) : ApiResp × Store × SaveTrace :=
  match firstMissing yieldRequired data with
  | some f => (errResp 400 (.missingField f), s, noSave)
  | none =>
    if "yield_model" ∉ modelsLoaded then
      (errResp 500 (.modelUnavailable "Crop yield model not available"), s, noSave)
    else
      match coerceYieldDup data with
      | .error f => (errResp 500 (.castError f), s, noSave)
      | .ok (year, rain, pest, temp, area, item) =>
        let userId := data.lookup "user_id"
        let row := yieldRowDup userId year rain pest temp area item py now
        let saved := persistOnce sb (truthy userId) oracle "crop_yield_predictions" row s
        ({ status := 200, success := true, predicted_yield := some py,
           yield_per_hectare := some (if area > 0 then py / area else 0) },
         saved.1, saved.2)

/-- Required fields of `POST /api/fertilizer-recommendation` (note the
literal trailing space in `"Humidity "`). -/
def fertRequired : List String :=
  ["Temparature", "Humidity ", "Moisture", "Soil Type", "Crop Type",
   "Nitrogen", "Potassium", "Phosphorous"]

/-- The `input_data` construction of `recommend_fertilizer`: `float()`
on the six numerals, pass-through for the two categorical fields, in the
source's dict-literal order. -/
def coerceFert (data : RowData) :
    Except String (ℚ × ℚ × ℚ × JValue × JValue × ℚ × ℚ × ℚ) := do
  let t ← getFloat data "Temparature"
  let h ← getFloat data "Humidity "
  let m ← getFloat data "Moisture"
  let soil ← getRaw data "Soil Type"
  let crop ← getRaw data "Crop Type"
  let n ← getFloat data "Nitrogen"
  let k ← getFloat data "Potassium"
  let p ← getFloat data "Phosphorous"
  return (t, h, m, soil, crop, n, k, p)

/-- The row `recommend_fertilizer` inserts into table
`fertilizer_recommendations`. -/
def fertRow (userId : Option JValue) (t h m : ℚ) (soil crop : JValue)
    (n k p : ℚ) (fert : String) (conf : ℚ) (now : String) : RowData :=
  [("user_id", userId.getD .null), ("temperature", .num t),
   ("humidity", .num h), ("moisture", .num m), ("soil_type", soil),
   ("crop_type", crop), ("nitrogen", .num n), ("potassium", .num k),
   ("phosphorous", .num p), ("recommended_fertilizer", .str fert),
   ("confidence_score", .num conf), ("created_at", .str now)]

/-- Handler `recommend_fertilizer` from `app.py`
(`POST /api/fertilizer-recommendation`), translated step for step:
validate → model-availability check → coerce → (opaque pipeline
prediction, given as `fert`/`conf`) → advisory synthesis → best-effort
persistence into `fertilizer_recommendations` → respond. -/
def recommend_fertilizer (data : RowData) (modelsLoaded : List String)
    (fert : String) (conf : ℚ) (sb : Bool) (oracle : ℕ → Bool) (s : Store)
    (now : String) : ApiResp × Store × SaveTrace :=
  match firstMissing fertRequired data with
  | some f => (errResp 400 (.missingField f), s, noSave)
  | none =>
    if "fertilizer_model" ∉ modelsLoaded then
      (errResp 500 (.modelUnavailable "Fertilizer model not available"), s, noSave)
    else
      let userId := data.lookup "user_id"
      match coerceFert data with
      | .error f => (errResp 500 (.castError f), s, noSave)
      | .ok (t, h, m, soil, crop, n, k, p) =>
        let adv := get_fertilizer_advice_lines fert n p k crop soil
          ((data.lookup "Temparature").getD .null)
          ((data.lookup "Humidity ").getD .null)
        let row := fertRow userId t h m soil crop n k p fert conf now
        let saved := persist sb (truthy userId) oracle "fertilizer_recommendations" row s
        ({ status := 200, success := true, recommended_fertilizer := some fert,
           confidence := some conf, advice := some adv },
         saved.1, saved.2)

/-- The `created_at` value of a row (empty when absent), used by the
history queries' `order('created_at', desc=True)`. -/
def rowTime (row : RowData) : String :=
  match row.lookup "created_at" with
  | some (.str t) => t
  | _ => ""

/-- Insert one row into a list kept sorted by `created_at` descending. -/
def insertByTimeDesc (r : RowData) : List RowData → List RowData
  | [] => [r]
  | x :: xs => if rowTime x < rowTime r then r :: x :: xs else x :: insertByTimeDesc r xs

/-- Sort rows by `created_at` descending (insertion sort). -/
def sortByTimeDesc : List RowData → List RowData
  | [] => []
  | x :: xs => insertByTimeDesc x (sortByTimeDesc xs)

/-- One history category's Supabase query chain over a store:
`table(t).select('*').eq('user_id', uid).order('created_at', desc=True).limit(10)`. -/
def tableQuery (s : Store) (table : String) (uid : JValue) : List RowData :=
  ((sortByTimeDesc ((s table).filter (fun r => r.lookup "user_id" = some uid))).take 10)

/-- The JSON response of `GET /api/user/history/<user_id>`. -/
structure HistoryResp where
  status : ℕ
  success : Bool
  error : Option ApiError := none
  crop_recommendations : List RowData := []
  disease_detections : List RowData := []
  fertilizer_recommendations : List RowData := []
  crop_yield_predictions : List RowData := []
  total_records : ℕ := 0
deriving DecidableEq, Repr

/-- A category's `try: ... except: []` guard: the query result when it
succeeded, the empty list when it raised. -/
def orEmpty : Except String (List RowData) → List RowData
  | .ok l => l
  | .error _ => []

/-- Handler `get_user_history` from `app.py` (`GET /api/user/history/<user_id>`),
translated step for step.  Each of the four category queries is an
`Except` parameter (the outcome of its Supabase call chain, which may
raise); each is guarded by its own `try/except` that substitutes `[]`;
`total_records` sums the lengths of the four lists actually placed in
the response. -/
def get_user_history (configured : Bool)
    (qCrop qDisease qFert qYield : Except String (List RowData)) : HistoryResp :=
  if ¬configured then
    { status := 500, success := false, error := some .dbNotConfigured }
  else
    let c := orEmpty qCrop
    let d := orEmpty qDisease
    let f := orEmpty qFert
    let y := orEmpty qYield
    { status := 200, success := true,
      crop_recommendations := c, disease_detections := d,
      fertilizer_recommendations := f, crop_yield_predictions := y,
      total_records := c.length + d.length + f.length + y.length }

/-- The history endpoint run against an actual store with all four query
chains succeeding, reading the four tables named in `get_user_history`'s
source (`crop_recommendations`, `disease_detections`,
`fertilizer_recommendations`, `crop_yield_predictions`). -/
def historyFromStore (s : Store) (uid : JValue) : HistoryResp :=
  get_user_history true
    (.ok (tableQuery s "crop_recommendations" uid))
    (.ok (tableQuery s "disease_detections" uid))
    (.ok (tableQuery s "fertilizer_recommendations" uid))
    (.ok (tableQuery s "crop_yield_predictions" uid))

/-! ## Helper lemmas -/

theorem find?_first {α : Type} (p : α → Bool) :
    ∀ (l : List α) (a : α), l.find? p = some a →
      p a = true ∧ ∃ pre suf, l = pre ++ a :: suf ∧ ∀ b ∈ pre, p b = false := by
  intro l
  induction l with
  | nil => intro a h; simp [List.find?] at h
  | cons x xs ih =>
    intro a h
    by_cases hx : p x = true
    · rw [List.find?_cons_of_pos _ hx] at h
      cases h
      exact ⟨hx, [], xs, rfl, by simp⟩
    · rw [List.find?_cons_of_neg _ (by simpa using hx)] at h
      obtain ⟨hpa, pre, suf, hl, hpre⟩ := ih a h
      refine ⟨hpa, x :: pre, suf, by rw [hl]; rfl, ?_⟩
      intro b hb
      rcases List.mem_cons.mp hb with hb | hb
      · subst hb; simpa using hx
      · exact hpre b hb

theorem saveLoop_allfail (o : ℕ → Bool) (hf : ∀ i, o i = false) (a : ℕ) :
    saveLoop o a 3 = ⟨3, 2, false⟩ := by
  simp [saveLoop, hf]

theorem saveLoop_first_success (o : ℕ → Bool) (a r : ℕ) (h : o a = true) :
    saveLoop o a (r + 1) = ⟨1, 0, true⟩ := by
  simp [saveLoop, h]

theorem persist_allfail (sb uid : Bool) (o : ℕ → Bool) (hf : ∀ i, o i = false)
    (tbl : String) (row : RowData) (s : Store) :
    persist sb uid o tbl row s = (s, if sb ∧ uid then ⟨3, 2, false⟩ else noSave) := by
  unfold persist
  by_cases h : sb = true ∧ uid = true
  · simp [h, saveLoop_allfail o hf]
  · simp only [Bool.and_eq_true] at h ⊢
    rw [if_neg h, if_neg h]

theorem persist_skip (sb uid : Bool) (o : ℕ → Bool) (tbl : String) (row : RowData)
    (s : Store) (h : ¬(sb = true ∧ uid = true)) :
    persist sb uid o tbl row s = (s, noSave) := by
  unfold persist
  simp only [Bool.and_eq_true]
  rw [if_neg h]

theorem persist_store_spec (sb uid : Bool) (o : ℕ → Bool) (tbl : String)
    (row : RowData) (s : Store) :
    (persist sb uid o tbl row s).1 = s ∨
    (sb = true ∧ uid = true ∧ (persist sb uid o tbl row s).1 = updateStore s tbl row) := by
  unfold persist
  by_cases h : sb = true ∧ uid = true
  · by_cases hs : (saveLoop o 0 3).saved = true
    · refine Or.inr ⟨h.1, h.2, ?_⟩
      simp [Bool.and_eq_true, h, hs]
    · refine Or.inl ?_
      simp [Bool.and_eq_true, h, hs]
  · simp only [Bool.and_eq_true]
    rw [if_neg h]
    exact Or.inl rfl

theorem persist_attempts (sb uid : Bool) (o : ℕ → Bool) (tbl : String)
    (row : RowData) (s : Store) (h : o 0 = true) :
    (persist sb uid o tbl row s).2.attempts ≤ 1 := by
  unfold persist
  by_cases hb : sb = true ∧ uid = true
  · simp [Bool.and_eq_true, hb, saveLoop_first_success o 0 2 h]
  · simp only [Bool.and_eq_true]
    rw [if_neg hb]
    exact Nat.zero_le 1

theorem updateStore_ne (s : Store) (tbl : String) (row : RowData) (t : String)
    (h : t ≠ tbl) : updateStore s tbl row t = s t := by
  unfold updateStore
  rw [if_neg h]

theorem updateStore_len (s : Store) (tbl : String) (row : RowData) (t : String) :
    (updateStore s tbl row t).length ≤ (s t).length + 1 := by
  unfold updateStore
  split
  · simp
  · exact Nat.le_succ _

theorem append_ne_of_head_ne (p x q : String) (hnn : p.data.head? ≠ none)
    (h : p.data.head? ≠ q.data.head?) : p ++ x ≠ q := by
  intro he
  apply h
  rw [← he]
  show p.data.head? = (p ++ x).data.head?
  have hd : (p ++ x).data = p.data ++ x.data := rfl
  rw [hd]
  cases hx : p.data with
  | nil => exact absurd (congrArg List.head? hx) hnn
  | cons a as => rfl

/-- Case-elimination principle for `predict_crop`: the handler's result
is one of exactly five outcomes — missing-field 400, coercion 500,
model-unavailable 500, out-of-table soft failure, or the success payload
with the persistence block's store and trace. -/
theorem predict_crop_elim (P : ApiResp × Store × SaveTrace → Prop)
    (data : RowData) (m : List String) (pred : ℤ) (conf : ℚ) (sb : Bool)
    (o : ℕ → Bool) (s : Store) (now : String)
    (hmiss : ∀ f, firstMissing cropRequired data = some f →
      P (errResp 400 (.missingField f), s, noSave))
    (hcast : ∀ f, firstMissing cropRequired data = none →
      coerceCrop data = .error f →
      P (errResp 500 (.castError f), s, noSave))
    (hnomodel : firstMissing cropRequired data = none →
      (∃ v, coerceCrop data = .ok v) → "crop_model" ∉ m →
      P (errResp 500 (.modelUnavailable "Crop recommendation model not available"), s, noSave))
    (hsoft : firstMissing cropRequired data = none →
      (∃ v, coerceCrop data = .ok v) → "crop_model" ∈ m →
      CROP_DICT.lookup pred = none →
      P (cropSoftFailResp, s, noSave))
    (hok : ∀ n p k t h ph r crop, firstMissing cropRequired data = none →
      coerceCrop data = .ok (n, p, k, t, h, ph, r) → "crop_model" ∈ m →
      CROP_DICT.lookup pred = some crop →
      P ({ status := 200, success := true, recommended_crop := some crop,
           confidence := some conf,
           message := some (crop ++ " is the best crop for these conditions") },
         (persist sb (truthy (data.lookup "user_id")) o "crop_recommendations"
            (cropRow (data.lookup "user_id") n p k t h ph r conf crop now) s).1,
         (persist sb (truthy (data.lookup "user_id")) o "crop_recommendations"
            (cropRow (data.lookup "user_id") n p k t h ph r conf crop now) s).2)) :
    P (predict_crop data m pred conf sb o s now) := by
  unfold predict_crop
  split
  next f hfm => exact hmiss f hfm
  next hfm =>
    split
    next f hc => exact hcast f hfm hc
    next n p k t h ph r hc =>
      split
      next hm =>
        split
        next crop hcd => exact hok n p k t h ph r crop hfm hc hm hcd
        next hcd => exact hsoft hfm ⟨_, hc⟩ hm hcd
      next hm => exact hnomodel hfm ⟨_, hc⟩ hm

/-- Case-elimination principle for `detect_disease`. -/
theorem detect_disease_elim (P : ApiResp × Store × SaveTrace → Prop)
    (fp : Bool) (fn : String) (userId : Option JValue) (m : List String)
    (pred : ℤ) (conf : ℚ) (sb : Bool) (o : ℕ → Bool) (s : Store) (now : String)
    (hnofile : ¬fp = true → P (errResp 400 .noFile, s, noSave))
    (hempty : fp = true → fn = "" → P (errResp 400 .emptyFilename, s, noSave))
    (hnomodel : fp = true → ¬fn = "" → "disease_interpreter" ∉ m →
      P (errResp 500 (.modelUnavailable "Disease detection model not available"), s, noSave))
    (hkey : fp = true → ¬fn = "" → "disease_interpreter" ∈ m →
      DISEASE_LABELS.lookup pred = none →
      P (errResp 500 (.keyError pred), s, noSave))
    (hok : ∀ disease, fp = true → ¬fn = "" → "disease_interpreter" ∈ m →
      DISEASE_LABELS.lookup pred = some disease →
      P ({ status := 200, success := true, disease := some disease,
           confidence := some conf,
           severity := some (get_severity_level conf disease) },
         (persist sb (truthy userId) o "disease_detections"
            (diseaseRow userId disease conf now) s).1,
         (persist sb (truthy userId) o "disease_detections"
            (diseaseRow userId disease conf now) s).2)) :
    P (detect_disease fp fn userId m pred conf sb o s now) := by
  unfold detect_disease
  split
  next h1 => exact hnofile h1
  next h1 =>
    rw [not_not] at h1
    split
    next h2 => exact hempty h1 h2
    next h2 =>
      split
      next h3 => exact hnomodel h1 h2 h3
      next h3 =>
        rw [not_not] at h3
        split
        next hl => exact hkey h1 h2 h3 hl
        next disease hl => exact hok disease h1 h2 h3 hl

/-- Case-elimination principle for the primary `predict_crop_yield`. -/
theorem predict_crop_yield_elim (P : ApiResp × Store × SaveTrace → Prop)
    (data : RowData) (m : List String) (py : ℚ) (sb : Bool)
    (o : ℕ → Bool) (s : Store) (now : String)
    (hmiss : ∀ f, firstMissing yieldRequired data = some f →
      P (errResp 400 (.missingField f), s, noSave))
    (hnomodel : firstMissing yieldRequired data = none → "yield_model" ∉ m →
      P (errResp 500 (.modelUnavailable "Crop yield model not available"), s, noSave))
    (hcast : ∀ f, firstMissing yieldRequired data = none → "yield_model" ∈ m →
      coerceYield data = .error f →
      P (errResp 500 (.castError f), s, noSave))
    (hok : ∀ year rain pest temp area item,
      firstMissing yieldRequired data = none → "yield_model" ∈ m →
      coerceYield data = .ok (year, rain, pest, temp, area, item) →
      P ({ status := 200, success := true, predicted_yield := some py },
         (persist sb (truthy (data.lookup "user_id")) o "yield_predictions"
            (yieldRow (data.lookup "user_id") year rain pest temp area item py now) s).1,
         (persist sb (truthy (data.lookup "user_id")) o "yield_predictions"
            (yieldRow (data.lookup "user_id") year rain pest temp area item py now) s).2)) :
    P (predict_crop_yield data m py sb o s now) := by
  unfold predict_crop_yield
  split
  next f hfm => exact hmiss f hfm
  next hfm =>
    split
    next hm => exact hnomodel hfm hm
    next hm =>
      rw [not_not] at hm
      split
      next f hc => exact hcast f hfm hm hc
      next year rain pest temp area item hc =>
        exact hok year rain pest temp area item hfm hm hc

/-- Case-elimination principle for the duplicated yield handler of
`additional_routes.py`. -/
theorem predict_crop_yield_dup_elim (P : ApiResp × Store × SaveTrace → Prop)
    (data : RowData) (m : List String) (py : ℚ) (sb : Bool)
    (o : ℕ → Bool) (s : Store) (now : String)
    (hmiss : ∀ f, firstMissing yieldRequired data = some f →
      P (errResp 400 (.missingField f), s, noSave))
    (hnomodel : firstMissing yieldRequired data = none → "yield_model" ∉ m →
      P (errResp 500 (.modelUnavailable "Crop yield model not available"), s, noSave))
    (hcast : ∀ f, firstMissing yieldRequired data = none → "yield_model" ∈ m →
      coerceYieldDup data = .error f →
      P (errResp 500 (.castError f), s, noSave))
    (hok : ∀ year rain pest temp area item,
      firstMissing yieldRequired data = none → "yield_model" ∈ m →
      coerceYieldDup data = .ok (year, rain, pest, temp, area, item) →
      P ({ status := 200, success := true, predicted_yield := some py,
           yield_per_hectare := some (if area > 0 then py / area else 0) },
         (persistOnce sb (truthy (data.lookup "user_id")) o "crop_yield_predictions"
            (yieldRowDup (data.lookup "user_id") year rain pest temp area item py now) s).1,
         (persistOnce sb (truthy (data.lookup "user_id")) o "crop_yield_predictions"
            (yieldRowDup (data.lookup "user_id") year rain pest temp area item py now) s).2)) :
    P (predict_crop_yield_dup data m py sb o s now) := by
  unfold predict_crop_yield_dup
  split
  next f hfm => exact hmiss f hfm
  next hfm =>
    split
    next hm => exact hnomodel hfm hm
    next hm =>
      rw [not_not] at hm
      split
      next f hc => exact hcast f hfm hm hc
      next year rain pest temp area item hc =>
        exact hok year rain pest temp area item hfm hm hc

/-- Case-elimination principle for `recommend_fertilizer`. -/
theorem recommend_fertilizer_elim (P : ApiResp × Store × SaveTrace → Prop)
    (data : RowData) (m : List String) (fert : String) (conf : ℚ) (sb : Bool)
    (o : ℕ → Bool) (s : Store) (now : String)
    (hmiss : ∀ f, firstMissing fertRequired data = some f →
      P (errResp 400 (.missingField f), s, noSave))
    (hnomodel : firstMissing fertRequired data = none → "fertilizer_model" ∉ m →
      P (errResp 500 (.modelUnavailable "Fertilizer model not available"), s, noSave))
    (hcast : ∀ f, firstMissing fertRequired data = none → "fertilizer_model" ∈ m →
      coerceFert data = .error f →
      P (errResp 500 (.castError f), s, noSave))
    (hok : ∀ t h m2 soil crop n k p,
      firstMissing fertRequired data = none → "fertilizer_model" ∈ m →
      coerceFert data = .ok (t, h, m2, soil, crop, n, k, p) →
      P ({ status := 200, success := true, recommended_fertilizer := some fert,
           confidence := some conf,
           advice := some (get_fertilizer_advice_lines fert n p k crop soil
             ((data.lookup "Temparature").getD .null)
             ((data.lookup "Humidity ").getD .null)) },
         (persist sb (truthy (data.lookup "user_id")) o "fertilizer_recommendations"
            (fertRow (data.lookup "user_id") t h m2 soil crop n k p fert conf now) s).1,
         (persist sb (truthy (data.lookup "user_id")) o "fertilizer_recommendations"
            (fertRow (data.lookup "user_id") t h m2 soil crop n k p fert conf now) s).2)) :
    P (recommend_fertilizer data m fert conf sb o s now) := by
  unfold recommend_fertilizer
  split
  next f hfm => exact hmiss f hfm
  next hfm =>
    split
    next hm => exact hnomodel hfm hm
    next hm =>
      rw [not_not] at hm
      split
      next f hc => exact hcast f hfm hm hc
      next t h m2 soil crop n k p hc =>
        exact hok t h m2 soil crop n k p hfm hm hc

/-- The response of `predict_crop` does not depend on the Supabase
configuration flag, the insert oracle, or the store contents. -/
theorem predict_crop_resp_const (data : RowData) (m : List String)
    (pred : ℤ) (conf : ℚ) (sb sb' : Bool) (o o' : ℕ → Bool) (s s' : Store)
    (now : String) :
    (predict_crop data m pred conf sb o s now).1
      = (predict_crop data m pred conf sb' o' s' now).1 := by
  unfold predict_crop
  split
  · rfl
  · split
    · rfl
    · split
      · split
        · rfl
        · rfl
      · rfl

/-- The response of `detect_disease` does not depend on the Supabase
configuration flag, the insert oracle, or the store contents. -/
theorem detect_disease_resp_const (fp : Bool) (fn : String)
    (userId : Option JValue) (m : List String) (pred : ℤ) (conf : ℚ)
    (sb sb' : Bool) (o o' : ℕ → Bool) (s s' : Store) (now : String) :
    (detect_disease fp fn userId m pred conf sb o s now).1
      = (detect_disease fp fn userId m pred conf sb' o' s' now).1 := by
  unfold detect_disease
  split
  · rfl
  · split
    · rfl
    · split
      · rfl
      · split
        · rfl
        · rfl

/-- The response of the primary `predict_crop_yield` does not depend on
the Supabase configuration flag, the insert oracle, or the store. -/
theorem predict_crop_yield_resp_const (data : RowData) (m : List String)
    (py : ℚ) (sb sb' : Bool) (o o' : ℕ → Bool) (s s' : Store) (now : String) :
    (predict_crop_yield data m py sb o s now).1
      = (predict_crop_yield data m py sb' o' s' now).1 := by
  unfold predict_crop_yield
  split
  · rfl
  · split
    · rfl
    · split
      · rfl
      · rfl

/-- The response of `recommend_fertilizer` does not depend on the
Supabase configuration flag, the insert oracle, or the store. -/
theorem recommend_fertilizer_resp_const (data : RowData) (m : List String)
    (fert : String) (conf : ℚ) (sb sb' : Bool) (o o' : ℕ → Bool)
    (s s' : Store) (now : String) :
    (recommend_fertilizer data m fert conf sb o s now).1
      = (recommend_fertilizer data m fert conf sb' o' s' now).1 := by
  unfold recommend_fertilizer
  split
  · rfl
  · split
    · rfl
    · split
      · rfl
      · rfl

/-- After the persistence block, any table holds at most one more row
than before. -/
theorem persist_len (sb uid : Bool) (o : ℕ → Bool) (tbl : String)
    (row : RowData) (s : Store) (t : String) :
    ((persist sb uid o tbl row s).1 t).length ≤ (s t).length + 1 := by
  rcases persist_store_spec sb uid o tbl row s with h | ⟨_, _, h⟩
  · rw [h]; exact Nat.le_succ _
  · rw [h]; exact updateStore_len s tbl row t

/-- The persistence block never touches a table other than its own. -/
theorem persist_other (sb uid : Bool) (o : ℕ → Bool) (tbl : String)
    (row : RowData) (s : Store) (t : String) (ht : t ≠ tbl) :
    (persist sb uid o tbl row s).1 t = s t := by
  rcases persist_store_spec sb uid o tbl row s with h | ⟨_, _, h⟩
  · rw [h]
  · rw [h]; exact updateStore_ne s tbl row t ht

/-- What `firstMissing required data = some f` means: `f` is a required
field absent from the body, and every required field declared before it
is present. -/
def firstMissingSpec (required : List String) (data : RowData) (f : String) : Prop :=
  f ∈ required ∧ data.lookup f = none ∧
  ∃ pre suf, required = pre ++ f :: suf ∧ ∀ g ∈ pre, data.lookup g ≠ none

theorem firstMissing_correct (required : List String) (data : RowData)
    (f : String) (h : firstMissing required data = some f) :
    firstMissingSpec required data f := by
  obtain ⟨hp, pre, suf, hl, hpre⟩ := find?_first _ required f h
  refine ⟨hl ▸ List.mem_append_right _ (List.mem_cons_self _ _), ?_, pre, suf, hl, ?_⟩
  · simpa [Option.isNone_iff_eq_none] using hp
  · intro g hg hnone
    have h2 := hpre g hg
    rw [hnone] at h2
    simp at h2

/-- The head character of an append is the head of its nonempty left
part. -/
theorem head?_append_left (p x : String) (h : p.data ≠ []) :
    (p ++ x).data.head? = p.data.head? := by
  show (p.data ++ x.data).head? = p.data.head?
  cases hp : p.data with
  | nil => exact absurd hp h
  | cons a as => rfl

/-- The three possible nitrogen lines of the soil analysis. -/
def nitrogenTierLines : List String :=
  ["• 🔴 Low nitrogen detected - this fertilizer will help boost leaf growth",
   "• 🟡 High nitrogen levels - monitor to prevent excessive vegetative growth",
   "• 🟢 Nitrogen levels are adequate"]

/-- The three possible phosphorous lines of the soil analysis. -/
def phosphorousTierLines : List String :=
  ["• 🔴 Low phosphorus - will improve root development and flowering",
   "• 🟢 Good phosphorus levels - maintain current status",
   "• 🟡 Moderate phosphorus levels"]

/-- The three possible potassium lines of the soil analysis. -/
def potassiumTierLines : List String :=
  ["• 🔴 Low potassium - will enhance disease resistance and fruit quality",
   "• 🟢 Excellent potassium levels",
   "• 🟡 Moderate potassium levels"]

/-- A line that does not start with the bullet character belongs to none
of the three nutrient tier-line sets. -/
theorem tier_not_mem_of_head (l : String) (hl : l.data.head? ≠ some '•') :
    l ∉ nitrogenTierLines ∧ l ∉ phosphorousTierLines ∧ l ∉ potassiumTierLines := by
  refine ⟨?_, ?_, ?_⟩ <;>
  · intro hmem
    simp [nitrogenTierLines, phosphorousTierLines, potassiumTierLines] at hmem
    rcases hmem with h | h | h <;> (subst h; exact hl (by decide))

/-! ## Sample requests used by closed theorems -/

/-- A complete, well-typed crop-recommendation request. -/
def okCropRequest : RowData :=
  [("nitrogen", .num 90), ("phosphorus", .num 42), ("potassium", .num 43),
   ("temperature", .num 21), ("humidity", .num 82), ("ph", .num 6),
   ("rainfall", .num 203), ("user_id", .str "farmer-1")]

/-- A complete yield request whose `Area` is the country name
`"Albania"` — a string `float()` cannot parse. -/
def albaniaYieldRequest : RowData :=
  [("Year", .num 2020), ("average_rain_fall_mm_per_year", .num 1485),
   ("pesticides_tonnes", .num 121), ("avg_temp", .num 16),
   ("Area", .str "Albania"), ("Item", .str "Maize"),
   ("user_id", .str "farmer-1")]

/-- A yield request with every required field present but a `Year` value
`int()` cannot parse. -/
def badYearYieldRequest : RowData :=
  [("Year", .str "twenty-twenty"), ("average_rain_fall_mm_per_year", .num 1485),
   ("pesticides_tonnes", .num 121), ("avg_temp", .num 16),
   ("Area", .str "Albania"), ("Item", .str "Maize")]

/-- A crop request with every required field present but a `nitrogen`
value `float()` cannot parse. -/
def badNCropRequest : RowData :=
  [("nitrogen", .str "lots"), ("phosphorus", .num 42), ("potassium", .num 43),
   ("temperature", .num 21), ("humidity", .num 82), ("ph", .num 6),
   ("rainfall", .num 203)]

/-- A complete, well-typed fertilizer request. -/
def okFertRequest : RowData :=
  [("Temparature", .num 26), ("Humidity ", .num 52), ("Moisture", .num 38),
   ("Soil Type", .str "Sandy"), ("Crop Type", .str "Maize"),
   ("Nitrogen", .num 37), ("Potassium", .num 0), ("Phosphorous", .num 0),
   ("user_id", .str "farmer-1")]

/-! ## Claims -/

/-- Claim C6: severity is a pure function of (confidence, disease
label): `Healthy` always maps to `Good`; otherwise confidence above 0.8
gives `High` for Powdery/Rust and `Medium` for any other label;
otherwise above 0.6 gives `Medium`; otherwise `Low`; in particular
`severity 0.85 Rust = High`, `severity 0.65 Powdery = Medium`,
`severity 0.3 Rust = Low`. -/
theorem claim_C6 (c : ℚ) (d : String) :
    get_severity_level c "Healthy" = "Good" ∧
    (d ≠ "Healthy" → 8/10 < c →
      get_severity_level c d = (if d = "Powdery" ∨ d = "Rust" then "High" else "Medium")) ∧
    (d ≠ "Healthy" → ¬(8/10 < c) → 6/10 < c → get_severity_level c d = "Medium") ∧
    (d ≠ "Healthy" → ¬(8/10 < c) → ¬(6/10 < c) → get_severity_level c d = "Low") ∧
    get_severity_level (17/20) "Rust" = "High" ∧
    get_severity_level (13/20) "Powdery" = "Medium" ∧
    get_severity_level (3/10) "Rust" = "Low" := by
  refine ⟨by simp [get_severity_level], ?_, ?_, ?_, ?_, ?_, ?_⟩
  · intro h1 h2; simp [get_severity_level, h1, h2]
  · intro h1 h2 h3; simp [get_severity_level, h1, h2, h3]
  · intro h1 h2 h3; simp [get_severity_level, h1, h2, h3]
  · have hne : ("Rust" : String) ≠ "Healthy" := by decide
    have hgt : (8 : ℚ)/10 < 17/20 := by norm_num
    simp [get_severity_level, hne, hgt]
  · have hne : ("Powdery" : String) ≠ "Healthy" := by decide
    have h2 : ¬((8 : ℚ)/10 < 13/20) := by norm_num
    have h3 : (6 : ℚ)/10 < 13/20 := by norm_num
    simp [get_severity_level, hne, h2, h3]
  · have hne : ("Rust" : String) ≠ "Healthy" := by decide
    have h2 : ¬((8 : ℚ)/10 < 3/10) := by norm_num
    have h3 : ¬((6 : ℚ)/10 < 3/10) := by norm_num
    simp [get_severity_level, hne, h2, h3]

/-- Witness for C6 at confidence 0.85 and label Rust. -/
theorem claim_C6_witness :
    ("Rust" : String) ≠ "Healthy" ∧ (8/10 : ℚ) < 17/20 ∧
    get_severity_level (17/20) "Rust" = "High" := by
  refine ⟨by decide, by norm_num, ?_⟩
  have h := (claim_C6 (17/20) "Rust").2.1 (by decide) (by norm_num)
  simpa using h

/-- Claim C9: the primary yield handler and its duplicate in
`additional_routes.py` are not behaviorally equivalent: on a request
whose `Area` is the country name `"Albania"` (not parseable as a float),
the primary handler passes `Area` through and answers 200 success, while
the duplicate applies `float()` to it and dies with the 500 cast
error. -/
theorem claim_C9 :
    pyFloatStr "Albania" = none ∧
    (predict_crop_yield albaniaYieldRequest ["yield_model"] 5 false
        (fun _ => false) (fun _ => []) "2025-01-01T00:00:00").1
      = { status := 200, success := true, predicted_yield := some 5 } ∧
    (predict_crop_yield_dup albaniaYieldRequest ["yield_model"] 5 false
        (fun _ => false) (fun _ => []) "2025-01-01T00:00:00").1
      = errResp 500 (.castError "Area") := by
  refine ⟨rfl, rfl, rfl⟩

/-- Claim C8: with the store configured, the history endpoint is
independently failure-tolerant per category: each category equals its
query's result or `[]` when that query raised, the response is a 200
success, and `total_records` is the sum of the four returned lists'
lengths. -/
theorem claim_C8 (qc qd qf qy : Except String (List RowData)) :
    (get_user_history true qc qd qf qy).status = 200 ∧
    (get_user_history true qc qd qf qy).success = true ∧
    (get_user_history true qc qd qf qy).crop_recommendations = orEmpty qc ∧
    (get_user_history true qc qd qf qy).disease_detections = orEmpty qd ∧
    (get_user_history true qc qd qf qy).fertilizer_recommendations = orEmpty qf ∧
    (get_user_history true qc qd qf qy).crop_yield_predictions = orEmpty qy ∧
    (get_user_history true qc qd qf qy).total_records =
      (orEmpty qc).length + (orEmpty qd).length + (orEmpty qf).length + (orEmpty qy).length ∧
    (∀ e, qc = .error e → (get_user_history true qc qd qf qy).crop_recommendations = []) ∧
    (∀ e, qd = .error e → (get_user_history true qc qd qf qy).disease_detections = []) ∧
    (∀ e, qf = .error e → (get_user_history true qc qd qf qy).fertilizer_recommendations = []) ∧
    (∀ e, qy = .error e → (get_user_history true qc qd qf qy).crop_yield_predictions = []) := by
  refine ⟨rfl, rfl, rfl, rfl, rfl, rfl, rfl, ?_, ?_, ?_, ?_⟩ <;>
  · intro e he
    subst he
    rfl

/-- Witness for C8: the yield query raises, the crop query returns one
row; the yield category is empty, the total counts only the crop row,
and the response is still a 200 success. -/
theorem claim_C8_witness :
    (get_user_history true (.ok [[("user_id", .str "u")]]) (.ok []) (.ok [])
        (.error "connection reset")).crop_yield_predictions = [] ∧
    (get_user_history true (.ok [[("user_id", .str "u")]]) (.ok []) (.ok [])
        (.error "connection reset")).total_records = 1 ∧
    (get_user_history true (.ok [[("user_id", .str "u")]]) (.ok []) (.ok [])
        (.error "connection reset")).status = 200 := by
  have h := claim_C8 (.ok [[("user_id", .str "u")]]) (.ok []) (.ok [])
    (.error "connection reset")
  exact ⟨h.2.2.2.2.2.2.2.2.2.2 "connection reset" rfl, by simpa using h.2.2.2.2.2.2.1, h.1⟩

/-- Claim C2: for every JSON prediction endpoint (crop recommendation,
yield prediction, fertilizer recommendation) and every body missing at
least one required field, the handler answers 400 with error text
`Missing field: <name>`, where `<name>` is the first missing field in
the endpoint's declared order — fail fast, first-missing-wins. -/
theorem claim_C2 (d1 d2 d3 : RowData) (m1 m3 m4 : List String)
    (pred : ℤ) (conf py : ℚ) (fert : String) (fconf : ℚ)
    (sb : Bool) (o : ℕ → Bool) (s : Store) (now : String) :
    ((∃ f ∈ cropRequired, d1.lookup f = none) →
      ∃ f, firstMissing cropRequired d1 = some f ∧ firstMissingSpec cropRequired d1 f ∧
        (predict_crop d1 m1 pred conf sb o s now).1 = errResp 400 (.missingField f) ∧
        errorText (.missingField f) = "Missing field: " ++ f) ∧
    ((∃ f ∈ yieldRequired, d2.lookup f = none) →
      ∃ f, firstMissing yieldRequired d2 = some f ∧ firstMissingSpec yieldRequired d2 f ∧
        (predict_crop_yield d2 m3 py sb o s now).1 = errResp 400 (.missingField f) ∧
        errorText (.missingField f) = "Missing field: " ++ f) ∧
    ((∃ f ∈ fertRequired, d3.lookup f = none) →
      ∃ f, firstMissing fertRequired d3 = some f ∧ firstMissingSpec fertRequired d3 f ∧
        (recommend_fertilizer d3 m4 fert fconf sb o s now).1 = errResp 400 (.missingField f) ∧
        errorText (.missingField f) = "Missing field: " ++ f) := by
  refine ⟨?_, ?_, ?_⟩
  · rintro ⟨f0, hf0, hnone⟩
    have hsome : (firstMissing cropRequired d1).isSome := by
      unfold firstMissing
      rw [List.find?_isSome]
      exact ⟨f0, hf0, by simp [hnone]⟩
    obtain ⟨f, hf⟩ := Option.isSome_iff_exists.mp hsome
    refine ⟨f, hf, firstMissing_correct _ _ _ hf, ?_, rfl⟩
    refine predict_crop_elim (fun out => out.1 = errResp 400 (.missingField f))
      d1 m1 pred conf sb o s now ?_ ?_ ?_ ?_ ?_
    · intro g hg; rw [hg] at hf; cases hf; rfl
    · intro g hfm _; rw [hfm] at hf; exact Option.noConfusion hf
    · intro hfm _ _; rw [hfm] at hf; exact Option.noConfusion hf
    · intro hfm _ _ _; rw [hfm] at hf; exact Option.noConfusion hf
    · intro _ _ _ _ _ _ _ _ hfm _ _ _; rw [hfm] at hf; exact Option.noConfusion hf
  · rintro ⟨f0, hf0, hnone⟩
    have hsome : (firstMissing yieldRequired d2).isSome := by
      unfold firstMissing
      rw [List.find?_isSome]
      exact ⟨f0, hf0, by simp [hnone]⟩
    obtain ⟨f, hf⟩ := Option.isSome_iff_exists.mp hsome
    refine ⟨f, hf, firstMissing_correct _ _ _ hf, ?_, rfl⟩
    refine predict_crop_yield_elim (fun out => out.1 = errResp 400 (.missingField f))
      d2 m3 py sb o s now ?_ ?_ ?_ ?_
    · intro g hg; rw [hg] at hf; cases hf; rfl
    · intro hfm _; rw [hfm] at hf; exact Option.noConfusion hf
    · intro g hfm _ _; rw [hfm] at hf; exact Option.noConfusion hf
    · intro _ _ _ _ _ _ hfm _ _; rw [hfm] at hf; exact Option.noConfusion hf
  · rintro ⟨f0, hf0, hnone⟩
    have hsome : (firstMissing fertRequired d3).isSome := by
      unfold firstMissing
      rw [List.find?_isSome]
      exact ⟨f0, hf0, by simp [hnone]⟩
    obtain ⟨f, hf⟩ := Option.isSome_iff_exists.mp hsome
    refine ⟨f, hf, firstMissing_correct _ _ _ hf, ?_, rfl⟩
    refine recommend_fertilizer_elim (fun out => out.1 = errResp 400 (.missingField f))
      d3 m4 fert fconf sb o s now ?_ ?_ ?_ ?_
    · intro g hg; rw [hg] at hf; cases hf; rfl
    · intro hfm _; rw [hfm] at hf; exact Option.noConfusion hf
    · intro g hfm _ _; rw [hfm] at hf; exact Option.noConfusion hf
    · intro _ _ _ _ _ _ _ _ hfm _ _; rw [hfm] at hf; exact Option.noConfusion hf

/-- Witness for C2: an empty body at each endpoint is answered 400
naming the first declared field. -/
theorem claim_C2_witness :
    (predict_crop [] [] 1 1 false (fun _ => false) (fun _ => []) "t").1
      = errResp 400 (.missingField "nitrogen") ∧
    errorText (.missingField "nitrogen") = "Missing field: nitrogen" ∧
    (predict_crop_yield [] [] 1 false (fun _ => false) (fun _ => []) "t").1
      = errResp 400 (.missingField "Year") ∧
    (recommend_fertilizer [] [] "Urea" 1 false (fun _ => false) (fun _ => []) "t").1
      = errResp 400 (.missingField "Temparature") := by
  have h := claim_C2 [] [] [] [] [] [] 1 1 1 "Urea" 1 false (fun _ => false)
    (fun _ => []) "t"
  obtain ⟨f1, hf1, _, hr1, ht1⟩ := h.1 ⟨"nitrogen", by decide, rfl⟩
  obtain ⟨f2, hf2, _, hr2, _⟩ := h.2.1 ⟨"Year", by decide, rfl⟩
  obtain ⟨f3, hf3, _, hr3, _⟩ := h.2.2 ⟨"Temparature", by decide, rfl⟩
  have e1 : firstMissing cropRequired [] = some "nitrogen" := rfl
  have e2 : firstMissing yieldRequired [] = some "Year" := rfl
  have e3 : firstMissing fertRequired [] = some "Temparature" := rfl
  rw [e1] at hf1; cases hf1
  rw [e2] at hf2; cases hf2
  rw [e3] at hf3; cases hf3
  exact ⟨hr1, ht1, hr2, hr3⟩

/-- Counterexample for C3: a yield request with all six required fields
present, a `Year` that `int()` cannot parse, and no yield model loaded
is answered with the 500 "model not available" error, not the 500 cast
error — the availability check runs before coercion there. -/
theorem claim_C3_counterexample :
    firstMissing yieldRequired badYearYieldRequest = none ∧
    coerceYield badYearYieldRequest = .error "Year" ∧
    (predict_crop_yield badYearYieldRequest [] 5 false (fun _ => false)
        (fun _ => []) "t").1
      = errResp 500 (.modelUnavailable "Crop yield model not available") ∧
    ((predict_crop_yield badYearYieldRequest [] 5 false (fun _ => false)
        (fun _ => []) "t").1).error ≠ some (.castError "Year") := by
  refine ⟨rfl, rfl, rfl, ?_⟩
  intro h
  exact ApiError.noConfusion (Option.some.inj h)

/-- Claim C3, amended: only the crop-recommendation handler coerces
fields before the model-availability check; the yield and fertilizer
handlers check availability first, so when the model handle is absent
they answer "model not available" even when a present field is not
coercible (disease detection coerces no body fields at all). -/
theorem claim_C3_amended (d1 d2 d3 : RowData) (m1 m3 m4 : List String)
    (pred : ℤ) (conf py : ℚ) (fert : String) (fconf : ℚ)
    (sb : Bool) (o : ℕ → Bool) (s : Store) (now : String) :
    (∀ f, firstMissing cropRequired d1 = none → coerceCrop d1 = .error f →
      (predict_crop d1 m1 pred conf sb o s now).1 = errResp 500 (.castError f)) ∧
    (firstMissing yieldRequired d2 = none → "yield_model" ∉ m3 →
      (predict_crop_yield d2 m3 py sb o s now).1
        = errResp 500 (.modelUnavailable "Crop yield model not available")) ∧
    (firstMissing fertRequired d3 = none → "fertilizer_model" ∉ m4 →
      (recommend_fertilizer d3 m4 fert fconf sb o s now).1
        = errResp 500 (.modelUnavailable "Fertilizer model not available")) := by
  refine ⟨?_, ?_, ?_⟩
  · intro f h1 h2
    refine predict_crop_elim (fun out => out.1 = errResp 500 (.castError f))
      d1 m1 pred conf sb o s now ?_ ?_ ?_ ?_ ?_
    · intro g hg; rw [h1] at hg; exact Option.noConfusion hg
    · intro g _ hcg; rw [h2] at hcg; cases hcg; rfl
    · rintro _ ⟨v, hv⟩ _; rw [h2] at hv; exact Except.noConfusion hv
    · rintro _ ⟨v, hv⟩ _ _; rw [h2] at hv; exact Except.noConfusion hv
    · intro n p k t h ph r crop _ hv _ _; rw [h2] at hv; exact Except.noConfusion hv
  · intro h1 h2
    refine predict_crop_yield_elim
      (fun out => out.1 = errResp 500 (.modelUnavailable "Crop yield model not available"))
      d2 m3 py sb o s now ?_ ?_ ?_ ?_
    · intro g hg; rw [h1] at hg; exact Option.noConfusion hg
    · intro _ _; rfl
    · intro g _ hm _; exact absurd hm h2
    · intro _ _ _ _ _ _ _ hm _; exact absurd hm h2
  · intro h1 h2
    refine recommend_fertilizer_elim
      (fun out => out.1 = errResp 500 (.modelUnavailable "Fertilizer model not available"))
      d3 m4 fert fconf sb o s now ?_ ?_ ?_ ?_
    · intro g hg; rw [h1] at hg; exact Option.noConfusion hg
    · intro _ _; rfl
    · intro g _ hm _; exact absurd hm h2
    · intro _ _ _ _ _ _ _ _ _ hm _; exact absurd hm h2

/-- Witness for C3 (amended): the crop handler cast-errors on an
uncoercible nitrogen even with no model loaded, while the yield and
fertilizer handlers with no model loaded answer "model not available". -/
theorem claim_C3_witness :
    (predict_crop badNCropRequest [] 1 1 false (fun _ => false) (fun _ => []) "t").1
      = errResp 500 (.castError "nitrogen") ∧
    (predict_crop_yield badYearYieldRequest [] 5 false (fun _ => false) (fun _ => []) "t").1
      = errResp 500 (.modelUnavailable "Crop yield model not available") ∧
    (recommend_fertilizer okFertRequest [] "Urea" 1 false (fun _ => false) (fun _ => []) "t").1
      = errResp 500 (.modelUnavailable "Fertilizer model not available") := by
  have h := claim_C3_amended badNCropRequest badYearYieldRequest okFertRequest
    [] [] [] 1 1 5 "Urea" 1 false (fun _ => false) (fun _ => []) "t"
  exact ⟨h.1 "nitrogen" rfl rfl, h.2.1 rfl (by decide), h.2.2 rfl (by decide)⟩

/-- Counterexample for C1: in `detect_disease`, a predicted class index
outside the 0–2 label table (here 3) raises a `KeyError` at
`DISEASE_LABELS[predicted_class]`, which the handler's catch-all turns
into an HTTP 500 error response — not the claimed 200 soft failure. -/
theorem claim_C1_counterexample :
    DISEASE_LABELS.lookup 3 = none ∧
    (detect_disease true "leaf.jpg" (some (.str "farmer-7")) ["disease_interpreter"]
        3 (9/10) true (fun _ => true) (fun _ => []) "t").1.status = 500 ∧
    (detect_disease true "leaf.jpg" (some (.str "farmer-7")) ["disease_interpreter"]
        3 (9/10) true (fun _ => true) (fun _ => []) "t").1.success = false ∧
    (detect_disease true "leaf.jpg" (some (.str "farmer-7")) ["disease_interpreter"]
        3 (9/10) true (fun _ => true) (fun _ => []) "t").1.status ≠ 200 := by
  refine ⟨rfl, rfl, rfl, ?_⟩
  intro h
  exact absurd h (by decide)

/-- Claim C1, amended: an out-of-table class index is a 200
`success:false` soft failure for crop recommendation (no crop name, an
explanatory message, nothing persisted), but for disease detection it is
a raised `KeyError` surfaced as an HTTP 500 error response. -/
theorem claim_C1_amended (d1 : RowData) (m1 : List String) (pred : ℤ) (conf : ℚ)
    (fn : String) (uid : Option JValue) (m2 : List String) (dpred : ℤ) (dconf : ℚ)
    (sb : Bool) (o : ℕ → Bool) (s : Store) (now : String) :
    (firstMissing cropRequired d1 = none → (∃ v, coerceCrop d1 = .ok v) →
      "crop_model" ∈ m1 → CROP_DICT.lookup pred = none →
      (predict_crop d1 m1 pred conf sb o s now).1 = cropSoftFailResp ∧
      (predict_crop d1 m1 pred conf sb o s now).2.1 = s) ∧
    (fn ≠ "" → "disease_interpreter" ∈ m2 → DISEASE_LABELS.lookup dpred = none →
      (detect_disease true fn uid m2 dpred dconf sb o s now).1
        = errResp 500 (.keyError dpred) ∧
      (detect_disease true fn uid m2 dpred dconf sb o s now).2.1 = s) := by
  constructor
  · intro h1 h2 h3 h4
    refine predict_crop_elim
      (fun out => out.1 = cropSoftFailResp ∧ out.2.1 = s)
      d1 m1 pred conf sb o s now ?_ ?_ ?_ ?_ ?_
    · intro g hg; rw [h1] at hg; exact Option.noConfusion hg
    · intro g _ hcg; obtain ⟨v, hv⟩ := h2; rw [hv] at hcg; exact Except.noConfusion hcg
    · intro _ _ hm; exact absurd h3 hm
    · intro _ _ _ _; exact ⟨rfl, rfl⟩
    · intro n p k t h ph r crop _ _ _ hcd; rw [h4] at hcd; exact Option.noConfusion hcd
  · intro h1 h2 h3
    refine detect_disease_elim
      (fun out => out.1 = errResp 500 (.keyError dpred) ∧ out.2.1 = s)
      true fn uid m2 dpred dconf sb o s now ?_ ?_ ?_ ?_ ?_
    · intro hfp; exact absurd rfl hfp
    · intro _ hfn; exact absurd hfn h1
    · intro _ _ hm; exact absurd h2 hm
    · intro _ _ _ _; exact ⟨rfl, rfl⟩
    · intro disease _ _ _ hl; rw [h3] at hl; exact Option.noConfusion hl

/-- Witness for C1 (amended): with everything else valid, crop class 23
soft-fails with a 200 and disease class -1 is a 500 KeyError. -/
theorem claim_C1_witness :
    (predict_crop okCropRequest ["crop_model"] 23 (9/10) false (fun _ => false)
        (fun _ => []) "t").1 = cropSoftFailResp ∧
    (detect_disease true "leaf.png" (some (.str "farmer-2")) ["disease_interpreter"]
        (-1) (1/2) false (fun _ => false) (fun _ => []) "t").1
      = errResp 500 (.keyError (-1)) := by
  have h := claim_C1_amended okCropRequest ["crop_model"] 23 (9/10) "leaf.png"
    (some (.str "farmer-2")) ["disease_interpreter"] (-1) (1/2) false
    (fun _ => false) (fun _ => []) "t"
  exact ⟨(h.1 rfl ⟨_, rfl⟩ (by decide) rfl).1, (h.2 (by decide) (by decide) rfl).1⟩

/-- When every insert attempt fails, the persistence block leaves the
store unchanged, runs at most 3 attempts with one fewer sleep than
attempts, and reports no save. -/
theorem persist_allfail_props (sb uid : Bool) (o : ℕ → Bool)
    (hf : ∀ i, o i = false) (tbl : String) (row : RowData) (s : Store) :
    (persist sb uid o tbl row s).1 = s ∧
    (persist sb uid o tbl row s).2.attempts ≤ 3 ∧
    (persist sb uid o tbl row s).2.sleeps = (persist sb uid o tbl row s).2.attempts - 1 ∧
    (persist sb uid o tbl row s).2.saved = false := by
  rw [persist_allfail sb uid o hf tbl row s]
  by_cases hb : sb = true ∧ uid = true
  · rw [if_pos hb]; exact ⟨rfl, Nat.le_refl 3, rfl, rfl⟩
  · rw [if_neg hb]; exact ⟨rfl, Nat.zero_le 3, rfl, rfl⟩

/-- Claim C4: when every store-insert attempt raises, each primary
handler runs at most 3 attempts with a 1-second sleep between
consecutive attempts (one fewer sleep than attempts), swallows the
failure (no save, store unchanged), and returns exactly the response it
would return under any other insert oracle, including an
always-succeeding one. -/
theorem claim_C4 (d1 : RowData) (m1 : List String) (pred : ℤ) (conf : ℚ)
    (fp : Bool) (fn : String) (uid : Option JValue) (m2 : List String)
    (dpred : ℤ) (dconf : ℚ)
    (d2 : RowData) (m3 : List String) (py : ℚ)
    (d3 : RowData) (m4 : List String) (fert : String) (fconf : ℚ)
    (sb : Bool) (o oAny : ℕ → Bool) (s : Store) (now : String)
    (hfail : ∀ i, o i = false) :
    ((predict_crop d1 m1 pred conf sb o s now).1
        = (predict_crop d1 m1 pred conf sb oAny s now).1 ∧
      (predict_crop d1 m1 pred conf sb o s now).2.1 = s ∧
      (predict_crop d1 m1 pred conf sb o s now).2.2.attempts ≤ 3 ∧
      (predict_crop d1 m1 pred conf sb o s now).2.2.sleeps
        = (predict_crop d1 m1 pred conf sb o s now).2.2.attempts - 1 ∧
      (predict_crop d1 m1 pred conf sb o s now).2.2.saved = false) ∧
    ((detect_disease fp fn uid m2 dpred dconf sb o s now).1
        = (detect_disease fp fn uid m2 dpred dconf sb oAny s now).1 ∧
      (detect_disease fp fn uid m2 dpred dconf sb o s now).2.1 = s ∧
      (detect_disease fp fn uid m2 dpred dconf sb o s now).2.2.attempts ≤ 3 ∧
      (detect_disease fp fn uid m2 dpred dconf sb o s now).2.2.sleeps
        = (detect_disease fp fn uid m2 dpred dconf sb o s now).2.2.attempts - 1 ∧
      (detect_disease fp fn uid m2 dpred dconf sb o s now).2.2.saved = false) ∧
    ((predict_crop_yield d2 m3 py sb o s now).1
        = (predict_crop_yield d2 m3 py sb oAny s now).1 ∧
      (predict_crop_yield d2 m3 py sb o s now).2.1 = s ∧
      (predict_crop_yield d2 m3 py sb o s now).2.2.attempts ≤ 3 ∧
      (predict_crop_yield d2 m3 py sb o s now).2.2.sleeps
        = (predict_crop_yield d2 m3 py sb o s now).2.2.attempts - 1 ∧
      (predict_crop_yield d2 m3 py sb o s now).2.2.saved = false) ∧
    ((recommend_fertilizer d3 m4 fert fconf sb o s now).1
        = (recommend_fertilizer d3 m4 fert fconf sb oAny s now).1 ∧
      (recommend_fertilizer d3 m4 fert fconf sb o s now).2.1 = s ∧
      (recommend_fertilizer d3 m4 fert fconf sb o s now).2.2.attempts ≤ 3 ∧
      (recommend_fertilizer d3 m4 fert fconf sb o s now).2.2.sleeps
        = (recommend_fertilizer d3 m4 fert fconf sb o s now).2.2.attempts - 1 ∧
      (recommend_fertilizer d3 m4 fert fconf sb o s now).2.2.saved = false) := by
  refine ⟨⟨predict_crop_resp_const d1 m1 pred conf sb sb o oAny s s now, ?_⟩,
    ⟨detect_disease_resp_const fp fn uid m2 dpred dconf sb sb o oAny s s now, ?_⟩,
    ⟨predict_crop_yield_resp_const d2 m3 py sb sb o oAny s s now, ?_⟩,
    ⟨recommend_fertilizer_resp_const d3 m4 fert fconf sb sb o oAny s s now, ?_⟩⟩
  · refine predict_crop_elim
      (fun out => out.2.1 = s ∧ out.2.2.attempts ≤ 3 ∧
        out.2.2.sleeps = out.2.2.attempts - 1 ∧ out.2.2.saved = false)
      d1 m1 pred conf sb o s now ?_ ?_ ?_ ?_ ?_
    · intro f _; exact ⟨rfl, Nat.zero_le 3, rfl, rfl⟩
    · intro f _ _; exact ⟨rfl, Nat.zero_le 3, rfl, rfl⟩
    · intro _ _ _; exact ⟨rfl, Nat.zero_le 3, rfl, rfl⟩
    · intro _ _ _ _; exact ⟨rfl, Nat.zero_le 3, rfl, rfl⟩
    · intro n p k t h ph r crop _ _ _ _
      exact persist_allfail_props _ _ _ hfail _ _ _
  · refine detect_disease_elim
      (fun out => out.2.1 = s ∧ out.2.2.attempts ≤ 3 ∧
        out.2.2.sleeps = out.2.2.attempts - 1 ∧ out.2.2.saved = false)
      fp fn uid m2 dpred dconf sb o s now ?_ ?_ ?_ ?_ ?_
    · intro _; exact ⟨rfl, Nat.zero_le 3, rfl, rfl⟩
    · intro _ _; exact ⟨rfl, Nat.zero_le 3, rfl, rfl⟩
    · intro _ _ _; exact ⟨rfl, Nat.zero_le 3, rfl, rfl⟩
    · intro _ _ _ _; exact ⟨rfl, Nat.zero_le 3, rfl, rfl⟩
    · intro disease _ _ _ _
      exact persist_allfail_props _ _ _ hfail _ _ _
  · refine predict_crop_yield_elim
      (fun out => out.2.1 = s ∧ out.2.2.attempts ≤ 3 ∧
        out.2.2.sleeps = out.2.2.attempts - 1 ∧ out.2.2.saved = false)
      d2 m3 py sb o s now ?_ ?_ ?_ ?_
    · intro f _; exact ⟨rfl, Nat.zero_le 3, rfl, rfl⟩
    · intro _ _; exact ⟨rfl, Nat.zero_le 3, rfl, rfl⟩
    · intro f _ _ _; exact ⟨rfl, Nat.zero_le 3, rfl, rfl⟩
    · intro year rain pest temp area item _ _ _
      exact persist_allfail_props _ _ _ hfail _ _ _
  · refine recommend_fertilizer_elim
      (fun out => out.2.1 = s ∧ out.2.2.attempts ≤ 3 ∧
        out.2.2.sleeps = out.2.2.attempts - 1 ∧ out.2.2.saved = false)
      d3 m4 fert fconf sb o s now ?_ ?_ ?_ ?_
    · intro f _; exact ⟨rfl, Nat.zero_le 3, rfl, rfl⟩
    · intro _ _; exact ⟨rfl, Nat.zero_le 3, rfl, rfl⟩
    · intro f _ _ _; exact ⟨rfl, Nat.zero_le 3, rfl, rfl⟩
    · intro t h m2x soil crop n k p _ _ _
      exact persist_allfail_props _ _ _ hfail _ _ _

/-- Witness for C4: the crop handler with an always-failing oracle
returns the same response as with an always-succeeding one, after 3
attempts, 2 sleeps and no save. -/
theorem claim_C4_witness :
    (predict_crop okCropRequest ["crop_model"] 1 (9/10) true (fun _ => false)
        (fun _ => []) "t").1
      = (predict_crop okCropRequest ["crop_model"] 1 (9/10) true (fun _ => true)
        (fun _ => []) "t").1 ∧
    (predict_crop okCropRequest ["crop_model"] 1 (9/10) true (fun _ => false)
        (fun _ => []) "t").2.2.attempts ≤ 3 ∧
    (predict_crop okCropRequest ["crop_model"] 1 (9/10) true (fun _ => false)
        (fun _ => []) "t").2.2.saved = false := by
  have h := claim_C4 okCropRequest ["crop_model"] 1 (9/10) true "f.png" none []
    0 0 [] [] 0 [] [] "Urea" 0 true (fun _ => false) (fun _ => true)
    (fun _ => []) "t" (fun i => rfl)
  exact ⟨h.1.1, h.1.2.2.1, h.1.2.2.2.2⟩

/-- Claim C5: each primary handler writes a history row only when the
store is configured AND the caller's user_id is truthy (otherwise the
write is silently skipped and the response unchanged); it writes at most
one row, only into its own table; the retry loop stops at the first
successful insert; and a soft-failure prediction (out-of-table class)
writes nothing. -/
theorem claim_C5 (d1 : RowData) (m1 : List String) (pred : ℤ) (conf : ℚ)
    (fp : Bool) (fn : String) (uid : Option JValue) (m2 : List String)
    (dpred : ℤ) (dconf : ℚ)
    (d2 : RowData) (m3 : List String) (py : ℚ)
    (d3 : RowData) (m4 : List String) (fert : String) (fconf : ℚ)
    (sb : Bool) (o : ℕ → Bool) (s : Store) (now : String) :
    (((sb = false ∨ truthy (d1.lookup "user_id") = false) →
        (predict_crop d1 m1 pred conf sb o s now).2.1 = s) ∧
      (∀ t, t ≠ "crop_recommendations" →
        (predict_crop d1 m1 pred conf sb o s now).2.1 t = s t) ∧
      (∀ t, ((predict_crop d1 m1 pred conf sb o s now).2.1 t).length
        ≤ (s t).length + 1) ∧
      (CROP_DICT.lookup pred = none →
        (predict_crop d1 m1 pred conf sb o s now).2.1 = s) ∧
      (o 0 = true → (predict_crop d1 m1 pred conf sb o s now).2.2.attempts ≤ 1) ∧
      (predict_crop d1 m1 pred conf false o s now).1
        = (predict_crop d1 m1 pred conf true o s now).1) ∧
    (((sb = false ∨ truthy uid = false) →
        (detect_disease fp fn uid m2 dpred dconf sb o s now).2.1 = s) ∧
      (∀ t, t ≠ "disease_detections" →
        (detect_disease fp fn uid m2 dpred dconf sb o s now).2.1 t = s t) ∧
      (∀ t, ((detect_disease fp fn uid m2 dpred dconf sb o s now).2.1 t).length
        ≤ (s t).length + 1) ∧
      (DISEASE_LABELS.lookup dpred = none →
        (detect_disease fp fn uid m2 dpred dconf sb o s now).2.1 = s) ∧
      (o 0 = true → (detect_disease fp fn uid m2 dpred dconf sb o s now).2.2.attempts ≤ 1) ∧
      (detect_disease fp fn uid m2 dpred dconf false o s now).1
        = (detect_disease fp fn uid m2 dpred dconf true o s now).1) ∧
    (((sb = false ∨ truthy (d2.lookup "user_id") = false) →
        (predict_crop_yield d2 m3 py sb o s now).2.1 = s) ∧
      (∀ t, t ≠ "yield_predictions" →
        (predict_crop_yield d2 m3 py sb o s now).2.1 t = s t) ∧
      (∀ t, ((predict_crop_yield d2 m3 py sb o s now).2.1 t).length
        ≤ (s t).length + 1) ∧
      (o 0 = true → (predict_crop_yield d2 m3 py sb o s now).2.2.attempts ≤ 1) ∧
      (predict_crop_yield d2 m3 py false o s now).1
        = (predict_crop_yield d2 m3 py true o s now).1) ∧
    (((sb = false ∨ truthy (d3.lookup "user_id") = false) →
        (recommend_fertilizer d3 m4 fert fconf sb o s now).2.1 = s) ∧
      (∀ t, t ≠ "fertilizer_recommendations" →
        (recommend_fertilizer d3 m4 fert fconf sb o s now).2.1 t = s t) ∧
      (∀ t, ((recommend_fertilizer d3 m4 fert fconf sb o s now).2.1 t).length
        ≤ (s t).length + 1) ∧
      (o 0 = true → (recommend_fertilizer d3 m4 fert fconf sb o s now).2.2.attempts ≤ 1) ∧
      (recommend_fertilizer d3 m4 fert fconf false o s now).1
        = (recommend_fertilizer d3 m4 fert fconf true o s now).1) := by
  refine ⟨?_, ?_, ?_, ?_⟩
  · have hmain := predict_crop_elim
      (fun out =>
        ((sb = false ∨ truthy (d1.lookup "user_id") = false) → out.2.1 = s) ∧
        (∀ t, t ≠ "crop_recommendations" → out.2.1 t = s t) ∧
        (∀ t, (out.2.1 t).length ≤ (s t).length + 1) ∧
        (CROP_DICT.lookup pred = none → out.2.1 = s) ∧
        (o 0 = true → out.2.2.attempts ≤ 1))
      d1 m1 pred conf sb o s now
      (fun f _ => ⟨fun _ => rfl, fun t _ => rfl, fun t => Nat.le_succ _,
        fun _ => rfl, fun _ => Nat.zero_le 1⟩)
      (fun f _ _ => ⟨fun _ => rfl, fun t _ => rfl, fun t => Nat.le_succ _,
        fun _ => rfl, fun _ => Nat.zero_le 1⟩)
      (fun _ _ _ => ⟨fun _ => rfl, fun t _ => rfl, fun t => Nat.le_succ _,
        fun _ => rfl, fun _ => Nat.zero_le 1⟩)
      (fun _ _ _ _ => ⟨fun _ => rfl, fun t _ => rfl, fun t => Nat.le_succ _,
        fun _ => rfl, fun _ => Nat.zero_le 1⟩)
      ?_
    · exact ⟨hmain.1, hmain.2.1, hmain.2.2.1, hmain.2.2.2.1, hmain.2.2.2.2,
        predict_crop_resp_const d1 m1 pred conf false true o o s s now⟩
    · intro n p k t h ph r crop _ _ _ hcd
      refine ⟨?_, fun t2 ht2 => persist_other _ _ _ _ _ _ t2 ht2,
        fun t2 => persist_len _ _ _ _ _ _ t2, ?_,
        fun h0 => persist_attempts _ _ _ _ _ _ h0⟩
      · intro hor
        rw [persist_skip]
        rintro ⟨hsb, hu⟩
        rcases hor with hh | hh
        · rw [hh] at hsb; exact Bool.noConfusion hsb
        · rw [hh] at hu; exact Bool.noConfusion hu
      · intro he; rw [he] at hcd; exact Option.noConfusion hcd
  · have hmain := detect_disease_elim
      (fun out =>
        ((sb = false ∨ truthy uid = false) → out.2.1 = s) ∧
        (∀ t, t ≠ "disease_detections" → out.2.1 t = s t) ∧
        (∀ t, (out.2.1 t).length ≤ (s t).length + 1) ∧
        (DISEASE_LABELS.lookup dpred = none → out.2.1 = s) ∧
        (o 0 = true → out.2.2.attempts ≤ 1))
      fp fn uid m2 dpred dconf sb o s now
      (fun _ => ⟨fun _ => rfl, fun t _ => rfl, fun t => Nat.le_succ _,
        fun _ => rfl, fun _ => Nat.zero_le 1⟩)
      (fun _ _ => ⟨fun _ => rfl, fun t _ => rfl, fun t => Nat.le_succ _,
        fun _ => rfl, fun _ => Nat.zero_le 1⟩)
      (fun _ _ _ => ⟨fun _ => rfl, fun t _ => rfl, fun t => Nat.le_succ _,
        fun _ => rfl, fun _ => Nat.zero_le 1⟩)
      (fun _ _ _ _ => ⟨fun _ => rfl, fun t _ => rfl, fun t => Nat.le_succ _,
        fun _ => rfl, fun _ => Nat.zero_le 1⟩)
      ?_
    · exact ⟨hmain.1, hmain.2.1, hmain.2.2.1, hmain.2.2.2.1, hmain.2.2.2.2,
        detect_disease_resp_const fp fn uid m2 dpred dconf false true o o s s now⟩
    · intro disease _ _ _ hl
      refine ⟨?_, fun t2 ht2 => persist_other _ _ _ _ _ _ t2 ht2,
        fun t2 => persist_len _ _ _ _ _ _ t2, ?_,
        fun h0 => persist_attempts _ _ _ _ _ _ h0⟩
      · intro hor
        rw [persist_skip]
        rintro ⟨hsb, hu⟩
        rcases hor with hh | hh
        · rw [hh] at hsb; exact Bool.noConfusion hsb
        · rw [hh] at hu; exact Bool.noConfusion hu
      · intro he; rw [he] at hl; exact Option.noConfusion hl
  · have hmain := predict_crop_yield_elim
      (fun out =>
        ((sb = false ∨ truthy (d2.lookup "user_id") = false) → out.2.1 = s) ∧
        (∀ t, t ≠ "yield_predictions" → out.2.1 t = s t) ∧
        (∀ t, (out.2.1 t).length ≤ (s t).length + 1) ∧
        (o 0 = true → out.2.2.attempts ≤ 1))
      d2 m3 py sb o s now
      (fun f _ => ⟨fun _ => rfl, fun t _ => rfl, fun t => Nat.le_succ _,
        fun _ => Nat.zero_le 1⟩)
      (fun _ _ => ⟨fun _ => rfl, fun t _ => rfl, fun t => Nat.le_succ _,
        fun _ => Nat.zero_le 1⟩)
      (fun f _ _ _ => ⟨fun _ => rfl, fun t _ => rfl, fun t => Nat.le_succ _,
        fun _ => Nat.zero_le 1⟩)
      ?_
    · exact ⟨hmain.1, hmain.2.1, hmain.2.2.1, hmain.2.2.2,
        predict_crop_yield_resp_const d2 m3 py false true o o s s now⟩
    · intro year rain pest temp area item _ _ _
      refine ⟨?_, fun t2 ht2 => persist_other _ _ _ _ _ _ t2 ht2,
        fun t2 => persist_len _ _ _ _ _ _ t2,
        fun h0 => persist_attempts _ _ _ _ _ _ h0⟩
      intro hor
      rw [persist_skip]
      rintro ⟨hsb, hu⟩
      rcases hor with hh | hh
      · rw [hh] at hsb; exact Bool.noConfusion hsb
      · rw [hh] at hu; exact Bool.noConfusion hu
  · have hmain := recommend_fertilizer_elim
      (fun out =>
        ((sb = false ∨ truthy (d3.lookup "user_id") = false) → out.2.1 = s) ∧
        (∀ t, t ≠ "fertilizer_recommendations" → out.2.1 t = s t) ∧
        (∀ t, (out.2.1 t).length ≤ (s t).length + 1) ∧
        (o 0 = true → out.2.2.attempts ≤ 1))
      d3 m4 fert fconf sb o s now
      (fun f _ => ⟨fun _ => rfl, fun t _ => rfl, fun t => Nat.le_succ _,
        fun _ => Nat.zero_le 1⟩)
      (fun _ _ => ⟨fun _ => rfl, fun t _ => rfl, fun t => Nat.le_succ _,
        fun _ => Nat.zero_le 1⟩)
      (fun f _ _ _ => ⟨fun _ => rfl, fun t _ => rfl, fun t => Nat.le_succ _,
        fun _ => Nat.zero_le 1⟩)
      ?_
    · exact ⟨hmain.1, hmain.2.1, hmain.2.2.1, hmain.2.2.2,
        recommend_fertilizer_resp_const d3 m4 fert fconf false true o o s s now⟩
    · intro t h m2x soil crop n k p _ _ _
      refine ⟨?_, fun t2 ht2 => persist_other _ _ _ _ _ _ t2 ht2,
        fun t2 => persist_len _ _ _ _ _ _ t2,
        fun h0 => persist_attempts _ _ _ _ _ _ h0⟩
      intro hor
      rw [persist_skip]
      rintro ⟨hsb, hu⟩
      rcases hor with hh | hh
      · rw [hh] at hsb; exact Bool.noConfusion hsb
      · rw [hh] at hu; exact Bool.noConfusion hu

/-- Witness for C5: with Supabase unconfigured and an out-of-table crop
class, the store is untouched, the (skipped) persistence made at most
one attempt, and the response equals the one with Supabase
configured. -/
theorem claim_C5_witness :
    (predict_crop okCropRequest ["crop_model"] 23 (9/10) false (fun _ => true)
        (fun _ => []) "t").2.1 = (fun _ => []) ∧
    (predict_crop okCropRequest ["crop_model"] 23 (9/10) false (fun _ => true)
        (fun _ => []) "t").2.2.attempts ≤ 1 ∧
    (predict_crop okCropRequest ["crop_model"] 23 (9/10) false (fun _ => true)
        (fun _ => []) "t").1
      = (predict_crop okCropRequest ["crop_model"] 23 (9/10) true (fun _ => true)
        (fun _ => []) "t").1 := by
  have h := claim_C5 okCropRequest ["crop_model"] 23 (9/10) true "f.png" none []
    0 0 [] [] 0 [] [] "Urea" 0 false (fun _ => true) (fun _ => []) "t"
  exact ⟨h.1.1 (Or.inl rfl), h.1.2.2.2.2.1 rfl, h.1.2.2.2.2.2⟩

/-- Claim C10: the primary yield handler inserts into table
`yield_predictions`, while the history endpoint reads the yield category
from table `crop_yield_predictions`; the two names differ, so a yield
prediction logged by the primary handler never changes the
`crop_yield_predictions` category of any user's history response — and
concretely, a logged row lands in `yield_predictions` while
`crop_yield_predictions` stays empty. -/
theorem claim_C10 (data : RowData) (m : List String) (py : ℚ) (sb : Bool)
    (o : ℕ → Bool) (s : Store) (now : String) (uid : JValue) :
    ("yield_predictions" : String) ≠ "crop_yield_predictions" ∧
    (historyFromStore ((predict_crop_yield data m py sb o s now).2.1) uid).crop_yield_predictions
      = (historyFromStore s uid).crop_yield_predictions ∧
    (predict_crop_yield data m py sb o s now).2.1 "crop_yield_predictions"
      = s "crop_yield_predictions" ∧
    ((predict_crop_yield albaniaYieldRequest ["yield_model"] 5 true (fun _ => true)
        (fun _ => []) "t").2.1 "yield_predictions").length = 1 ∧
    (predict_crop_yield albaniaYieldRequest ["yield_model"] 5 true (fun _ => true)
        (fun _ => []) "t").2.1 "crop_yield_predictions" = [] := by
  have h3 : (predict_crop_yield data m py sb o s now).2.1 "crop_yield_predictions"
      = s "crop_yield_predictions" := by
    refine predict_crop_yield_elim
      (fun out => out.2.1 "crop_yield_predictions" = s "crop_yield_predictions")
      data m py sb o s now ?_ ?_ ?_ ?_
    · intro f _; rfl
    · intro _ _; rfl
    · intro f _ _ _; rfl
    · intro year rain pest temp area item _ _ _
      exact persist_other _ _ _ _ _ _ _ (by decide)
  refine ⟨by decide, ?_, h3, rfl, rfl⟩
  show tableQuery ((predict_crop_yield data m py sb o s now).2.1)
      "crop_yield_predictions" uid
    = tableQuery s "crop_yield_predictions" uid
  unfold tableQuery
  rw [h3]

/-- Whatever tier is selected, the nitrogen line is one of the three
nitrogen tier lines. -/
theorem nitrogenLine_mem (n : ℚ) : nitrogenLine n ∈ nitrogenTierLines := by
  unfold nitrogenLine
  split
  · decide
  split
  · decide
  · decide

theorem phosphorousLine_mem (p : ℚ) : phosphorousLine p ∈ phosphorousTierLines := by
  unfold phosphorousLine
  split
  · decide
  split
  · decide
  · decide

theorem potassiumLine_mem (k : ℚ) : potassiumLine k ∈ potassiumTierLines := by
  unfold potassiumLine
  split
  · decide
  split
  · decide
  · decide

/-- The nitrogen line never collides with another nutrient's tier
lines, and vice versa (all nine tier strings are distinct). -/
theorem nitrogenLine_cross (n : ℚ) :
    nitrogenLine n ∉ phosphorousTierLines ∧ nitrogenLine n ∉ potassiumTierLines := by
  unfold nitrogenLine
  split
  · decide
  split
  · decide
  · decide

theorem phosphorousLine_cross (p : ℚ) :
    phosphorousLine p ∉ nitrogenTierLines ∧ phosphorousLine p ∉ potassiumTierLines := by
  unfold phosphorousLine
  split
  · decide
  split
  · decide
  · decide

theorem potassiumLine_cross (k : ℚ) :
    potassiumLine k ∉ nitrogenTierLines ∧ potassiumLine k ∉ phosphorousTierLines := by
  unfold potassiumLine
  split
  · decide
  split
  · decide
  · decide

/-- A list containing no tier lines contributes zero to the tier-line
count. -/
theorem countP_tier_zero (tier : List String) (A : List String)
    (hA : ∀ a ∈ A, a ∉ tier) :
    A.countP (fun l => decide (l ∈ tier)) = 0 :=
  List.countP_eq_zero.mpr (fun a ha hc => hA a ha (of_decide_eq_true hc))

/-- No header line of the advisory is a nutrient tier line: each is
blank or starts with a non-bullet character. -/
theorem adviceHeader_no_tier (fert : String) :
    ∀ a ∈ adviceHeader fert,
      a ∉ nitrogenTierLines ∧ a ∉ phosphorousTierLines ∧ a ∉ potassiumTierLines := by
  have t1 := tier_not_mem_of_head ("🌾 Recommended Fertilizer: " ++ fert)
    (by rw [head?_append_left _ _ (by decide)]; decide)
  have t3 := tier_not_mem_of_head ("📋 Description: " ++ (fertBaseInfo fert).description)
    (by rw [head?_append_left _ _ (by decide)]; decide)
  have t4 := tier_not_mem_of_head ("🎯 Usage: " ++ (fertBaseInfo fert).usage)
    (by rw [head?_append_left _ _ (by decide)]; decide)
  have t5 := tier_not_mem_of_head ("⏰ Application: " ++ (fertBaseInfo fert).applyWhen)
    (by rw [head?_append_left _ _ (by decide)]; decide)
  have tE := tier_not_mem_of_head "" (by decide)
  have tS := tier_not_mem_of_head "📊 Soil Analysis Recommendations:" (by decide)
  intro a ha
  simp only [adviceHeader, List.mem_cons, List.not_mem_nil, or_false] at ha
  rcases ha with rfl | rfl | rfl | rfl | rfl | rfl | rfl
  · exact t1
  · exact tE
  · exact t3
  · exact t4
  · exact t5
  · exact tE
  · exact tS

/-- No footer line of the advisory is a nutrient tier line. -/
theorem adviceFooter_no_tier (cropT soilT tempV humV : JValue) :
    ∀ a ∈ adviceFooter cropT soilT tempV humV,
      a ∉ nitrogenTierLines ∧ a ∉ phosphorousTierLines ∧ a ∉ potassiumTierLines := by
  have t12 := tier_not_mem_of_head
    ("🌱 Crop: " ++ (jtext cropT ++ (" | 🏔️ Soil: " ++ jtext soilT)))
    (by rw [head?_append_left _ _ (by decide)]; decide)
  have t13 := tier_not_mem_of_head
    ("🌡️ Temperature: " ++ (jtext tempV ++ ("°C | 💧 Humidity: " ++ (jtext humV ++ "%"))))
    (by rw [head?_append_left _ _ (by decide)]; decide)
  have tE := tier_not_mem_of_head "" (by decide)
  intro a ha
  simp only [adviceFooter, List.mem_cons, List.not_mem_nil, or_false] at ha
  rcases ha with rfl | rfl | rfl
  · exact tE
  · exact t12
  · exact t13

/-- Claim C7: the fertilizer soil-analysis advisory is a pure tri-tier
function of the three nutrient values — nitrogen thresholds 20/50
(low / adequate / high), phosphorous 15/40 (low / moderate / good),
potassium 20/50 (low / moderate / excellent) — and for every input the
composed advisory contains exactly one line per nutrient, the line of
that nutrient's tier. -/
theorem claim_C7 (fert : String) (n p k : ℚ) (cropT soilT tempV humV : JValue) :
    ((get_fertilizer_advice_lines fert n p k cropT soilT tempV humV).countP
        (fun l => decide (l ∈ nitrogenTierLines)) = 1) ∧
    nitrogenLine n ∈ get_fertilizer_advice_lines fert n p k cropT soilT tempV humV ∧
    nitrogenLine n ∈ nitrogenTierLines ∧
    ((get_fertilizer_advice_lines fert n p k cropT soilT tempV humV).countP
        (fun l => decide (l ∈ phosphorousTierLines)) = 1) ∧
    phosphorousLine p ∈ get_fertilizer_advice_lines fert n p k cropT soilT tempV humV ∧
    phosphorousLine p ∈ phosphorousTierLines ∧
    ((get_fertilizer_advice_lines fert n p k cropT soilT tempV humV).countP
        (fun l => decide (l ∈ potassiumTierLines)) = 1) ∧
    potassiumLine k ∈ get_fertilizer_advice_lines fert n p k cropT soilT tempV humV ∧
    potassiumLine k ∈ potassiumTierLines ∧
    (n < 20 → nitrogenLine n
      = "• 🔴 Low nitrogen detected - this fertilizer will help boost leaf growth") ∧
    (n > 50 → nitrogenLine n
      = "• 🟡 High nitrogen levels - monitor to prevent excessive vegetative growth") ∧
    (20 ≤ n → n ≤ 50 → nitrogenLine n = "• 🟢 Nitrogen levels are adequate") ∧
    (p < 15 → phosphorousLine p
      = "• 🔴 Low phosphorus - will improve root development and flowering") ∧
    (p > 40 → phosphorousLine p
      = "• 🟢 Good phosphorus levels - maintain current status") ∧
    (15 ≤ p → p ≤ 40 → phosphorousLine p = "• 🟡 Moderate phosphorus levels") ∧
    (k < 20 → potassiumLine k
      = "• 🔴 Low potassium - will enhance disease resistance and fruit quality") ∧
    (k > 50 → potassiumLine k = "• 🟢 Excellent potassium levels") ∧
    (20 ≤ k → k ≤ 50 → potassiumLine k = "• 🟡 Moderate potassium levels") := by
  have hH := adviceHeader_no_tier fert
  have hF := adviceFooter_no_tier cropT soilT tempV humV
  refine ⟨?_, ?_, nitrogenLine_mem n, ?_, ?_, phosphorousLine_mem p, ?_, ?_,
    potassiumLine_mem k, ?_, ?_, ?_, ?_, ?_, ?_, ?_, ?_, ?_⟩
  · unfold get_fertilizer_advice_lines
    rw [List.countP_append, List.countP_append,
      countP_tier_zero nitrogenTierLines _ (fun a ha => (hH a ha).1),
      countP_tier_zero nitrogenTierLines _ (fun a ha => (hF a ha).1)]
    simp only [List.countP_cons, List.countP_nil]
    rw [if_pos (decide_eq_true (nitrogenLine_mem n)),
      if_neg (fun hc => (phosphorousLine_cross p).1 (of_decide_eq_true hc)),
      if_neg (fun hc => (potassiumLine_cross k).1 (of_decide_eq_true hc))]
  · unfold get_fertilizer_advice_lines
    exact List.mem_append_left _ (List.mem_append_right _ (List.mem_cons_self _ _))
  · unfold get_fertilizer_advice_lines
    rw [List.countP_append, List.countP_append,
      countP_tier_zero phosphorousTierLines _ (fun a ha => (hH a ha).2.1),
      countP_tier_zero phosphorousTierLines _ (fun a ha => (hF a ha).2.1)]
    simp only [List.countP_cons, List.countP_nil]
    rw [if_pos (decide_eq_true (phosphorousLine_mem p)),
      if_neg (fun hc => (nitrogenLine_cross n).1 (of_decide_eq_true hc)),
      if_neg (fun hc => (potassiumLine_cross k).2 (of_decide_eq_true hc))]
  · unfold get_fertilizer_advice_lines
    exact List.mem_append_left _ (List.mem_append_right _
      (List.mem_cons_of_mem _ (List.mem_cons_self _ _)))
  · unfold get_fertilizer_advice_lines
    rw [List.countP_append, List.countP_append,
      countP_tier_zero potassiumTierLines _ (fun a ha => (hH a ha).2.2),
      countP_tier_zero potassiumTierLines _ (fun a ha => (hF a ha).2.2)]
    simp only [List.countP_cons, List.countP_nil]
    rw [if_pos (decide_eq_true (potassiumLine_mem k)),
      if_neg (fun hc => (nitrogenLine_cross n).2 (of_decide_eq_true hc)),
      if_neg (fun hc => (phosphorousLine_cross p).2 (of_decide_eq_true hc))]
  · unfold get_fertilizer_advice_lines
    exact List.mem_append_left _ (List.mem_append_right _
      (List.mem_cons_of_mem _ (List.mem_cons_of_mem _ (List.mem_cons_self _ _))))
  · intro h; unfold nitrogenLine; rw [if_pos h]
  · intro h
    unfold nitrogenLine
    rw [if_neg (not_lt.mpr (by linarith)), if_pos h]
  · intro h1 h2
    unfold nitrogenLine
    rw [if_neg (not_lt.mpr h1), if_neg (not_lt.mpr h2)]
  · intro h; unfold phosphorousLine; rw [if_pos h]
  · intro h
    unfold phosphorousLine
    rw [if_neg (not_lt.mpr (by linarith)), if_pos h]
  · intro h1 h2
    unfold phosphorousLine
    rw [if_neg (not_lt.mpr h1), if_neg (not_lt.mpr h2)]
  · intro h; unfold potassiumLine; rw [if_pos h]
  · intro h
    unfold potassiumLine
    rw [if_neg (not_lt.mpr (by linarith)), if_pos h]
  · intro h1 h2
    unfold potassiumLine
    rw [if_neg (not_lt.mpr h1), if_neg (not_lt.mpr h2)]

/-- Witness for C7: nitrogen 10 is in the low tier and the advisory for
(Urea, 10, 60, 30) contains exactly one nitrogen line — the low one. -/
theorem claim_C7_witness :
    (10 : ℚ) < 20 ∧
    nitrogenLine 10
      = "• 🔴 Low nitrogen detected - this fertilizer will help boost leaf growth" ∧
    ((get_fertilizer_advice_lines "Urea" 10 60 30 (.str "Maize") (.str "Loamy")
        (.num 26) (.num 52)).countP
      (fun l => decide (l ∈ nitrogenTierLines)) = 1) ∧
    nitrogenLine 10 ∈ get_fertilizer_advice_lines "Urea" 10 60 30 (.str "Maize")
      (.str "Loamy") (.num 26) (.num 52) := by
  have h := claim_C7 "Urea" 10 60 30 (.str "Maize") (.str "Loamy") (.num 26) (.num 52)
  exact ⟨by norm_num, h.2.2.2.2.2.2.2.2.2.1 (by norm_num), h.1, h.2.1⟩
